import Mathlib

/-!
# Medical records front-end (`src/medical_records_frontend/src/app.js`)

A shallow embedding of the UI controller of the medical-records front-end.

* The module-level variables `actor` and `agent`, and the DOM nodes the
  handlers touch, form the explicit state `Sys`.
* Everything the handlers obtain from outside the file (the agent library,
  the principal parser, the canister, two JavaScript built-ins) is a field of
  `World`; every call into the libraries is recorded in `Sys.log` together
  with the value it threw, if any.
* A thrown value is any JavaScript value (`Thrown`): `null` and `undefined`
  included, on which reading `.message` throws a `TypeError`.
* An array of records decoded from a reply is an object of its own: it lives
  in `Sys.arrays` and the handler holds a reference to it.
* An `async` handler is a `Prog Unit`: a state transformer that may throw
  (the promise rejects).  Effects made before a throw persist, as in
  JavaScript.  One run of a handler is modelled in isolation; `console.log` /
  `console.error` lines write to no state of the page and are left out.
-/

namespace MedicalRecords

/-! ## Data model -/

/-- A thrown JavaScript value.  `object message` is an object (an `Error`
among them) whose `message` property is rendered by string concatenation as
`message`, or is `undefined` when `message` is `none`. -/
inductive Thrown where
  | null
  | undefined
  /-- A thrown string, number, boolean, bigint or symbol. -/
  | primitive
  | object (message : Option String)
  deriving DecidableEq, Repr

/-- The text that `"..." + error.message` appends; `none` when reading
`error.message` throws, which it does on `null` and `undefined`.  A primitive
has no `message`, and an undefined `message` is rendered as "undefined". -/
def Thrown.messageText : Thrown → Option String
  | .null => none
  | .undefined => none
  | .primitive => some "undefined"
  | .object none => some "undefined"
  | .object (some message) => some message

/-- A value of `Principal` from `@dfinity/principal`. -/
structure Principal where
  bytes : List Nat
  deriving DecidableEq, Repr

/-- The candid type descriptions of `IDL` from `@dfinity/candid` that the
file uses. -/
inductive IDL where
  | Text
  | Principal
  | Nat64
  | Bool
  | Vec (t : IDL)
  | Record (fields : List (String × IDL))
  deriving Repr

/-- The value of `IDL.Func(argTypes, retTypes, modes)`. -/
structure IDL.FuncClass where
  argTypes : List IDL
  retTypes : List IDL
  modes : List String
  deriving Repr

/-- The value of `IDL.Service(fields)`. -/
structure IDL.ServiceClass where
  fields : List (String × IDL.FuncClass)
  deriving Repr

/-- Constructor `IDL.Func`. -/
def IDL.Func (argTypes retTypes : List IDL) (modes : List String) : IDL.FuncClass :=
  { argTypes := argTypes, retTypes := retTypes, modes := modes }

/-- Constructor `IDL.Service`. -/
def IDL.Service (fields : List (String × IDL.FuncClass)) : IDL.ServiceClass :=
  { fields := fields }

/-- The argument object of `add_record`. -/
structure RecordInput where
  record_type : String
  content : String
  deriving DecidableEq, Repr

/-- A decoded `MedicalRecord` as the canister returns it. -/
structure MedicalRecord where
  id : String
  patient_id : Principal
  record_type : String
  content : String
  timestamp : Nat
  authorized_providers : List Principal
  deriving DecidableEq, Repr

/-- An `HttpAgent` object, by identity. -/
structure HttpAgent where
  ref : Nat
  deriving DecidableEq, Repr

/-- An actor object returned by `Actor.createActor`, by identity. -/
structure Actor where
  ref : Nat
  deriving DecidableEq, Repr

/-- Line 9: the canister id. -/
def canisterId : String := "uxrrr-q7777-77774-qaaaq-cai"

/-! ## The outside world -/

/-- What lies outside `app.js`: the agent library, the principal parser, the
canister behind an actor, and the two built-ins used when rendering.  A
handler run calls each of these at most once per argument, so a function of
the arguments covers every behaviour of one run. -/
structure World where
  /-- `new HttpAgent({ host })` -/
  newHttpAgent : String → Except Thrown HttpAgent
  /-- `agent.fetchRootKey()` -/
  fetchRootKey : HttpAgent → Except Thrown Unit
  /-- `Actor.createActor(factory, { agent, canisterId })` -/
  createActor : IDL.ServiceClass → HttpAgent → String → Except Thrown Actor
  /-- `Principal.fromText(text)` -/
  principalFromText : String → Except Thrown Principal
  /-- `actor.greet(name)` -/
  greet : Actor → String → Except Thrown String
  /-- `actor.add_record(input)` -/
  add_record : Actor → RecordInput → Except Thrown String
  /-- `actor.get_my_records()` -/
  get_my_records : Actor → Except Thrown (List MedicalRecord)
  /-- `actor.share_with_provider(id, principal)` -/
  share_with_provider : Actor → String → Principal → Except Thrown Bool
  /-- `actor.get_shared_records()` -/
  get_shared_records : Actor → Except Thrown (List MedicalRecord)
  /-- `String.prototype.toUpperCase` -/
  toUpperCase : String → String
  /-- `new Date(Number(t) / 1000000).toLocaleString()` -/
  formatTimestamp : Nat → String
  /-- The `TypeError` the engine throws when `.message` is read from the given
  `null` or `undefined`. -/
  typeError : Thrown → Thrown

/-- One call out of the file. -/
inductive Op where
  | newHttpAgent (host : String)
  | fetchRootKey (agent : HttpAgent)
  | createActor (service : IDL.ServiceClass) (agent : HttpAgent) (canisterId : String)
  | principalFromText (text : String)
  | greet (actor : Actor) (name : String)
  | add_record (actor : Actor) (input : RecordInput)
  | get_my_records (actor : Actor)
  | share_with_provider (actor : Actor) (recordId : String) (principal : Principal)
  | get_shared_records (actor : Actor)

/-- The calls that invoke an operation of the canister. -/
def Op.isCanisterCall : Op → Bool
  | .greet _ _ => true
  | .add_record _ _ => true
  | .get_my_records _ => true
  | .share_with_provider _ _ _ => true
  | .get_shared_records _ => true
  | _ => false

/-- A logged call and the value it threw (`none` when it returned). -/
structure Event where
  op : Op
  threw : Option Thrown

/-! ## State -/

/-- The DOM nodes read or written by the handlers. -/
structure Dom where
  /-- `#status.textContent` -/
  statusText : String
  /-- `#status.className` -/
  statusClass : String
  /-- `#recordType.value` -/
  recordType : String
  /-- `#content.value` -/
  content : String
  /-- `#shareRecordId.value` -/
  shareRecordId : String
  /-- `#providerId.value` -/
  providerId : String
  /-- `#recordsList.innerHTML` -/
  recordsList : String
  /-- `#sharedRecordsList.innerHTML` -/
  sharedRecordsList : String
  deriving DecidableEq, Repr

/-- A reference to an array of records held in `Sys.arrays`. -/
structure RecordsRef where
  index : Nat
  deriving DecidableEq, Repr

/-- Module variables (lines 5-6), the page, the log of outside calls, and the
arrays of records decoded from replies, as they currently are. -/
structure Sys where
  actor : Option Actor
  agent : Option HttpAgent
  dom : Dom
  log : List Event
  arrays : List (List MedicalRecord)

/-- A computation that reads and writes `Sys` and may throw. -/
def Prog (α : Type) : Type := Sys → Except Thrown α × Sys

/-- Return a value. -/
def Prog.pure {α : Type} (a : α) : Prog α := fun s => (.ok a, s)

/-- Sequencing: a throw skips the rest and keeps the state reached. -/
def Prog.bind {α β : Type} (x : Prog α) (f : α → Prog β) : Prog β := fun s =>
  match x s with
  | (.ok a, s') => f a s'
  | (.error e, s') => (.error e, s')

instance : Monad Prog where
  pure := Prog.pure
  bind := Prog.bind

/-- The statement `try { body } catch (error) { handler }`. -/
def tryCatch {α : Type} (body : Prog α) (handler : Thrown → Prog α) : Prog α := fun s =>
  match body s with
  | (.ok a, s') => (.ok a, s')
  | (.error e, s') => handler e s'

/-- A call out of the file: log it, then return or throw its result. -/
def perform {α : Type} (op : Op) (result : Except Thrown α) : Prog α := fun s =>
  match result with
  | .ok a => (.ok a, { s with log := s.log ++ [{ op := op, threw := none }] })
  | .error e => (.error e, { s with log := s.log ++ [{ op := op, threw := some e }] })

/-- A call out of the file whose reply is an array of records: the decoded
array is a new object in `Sys.arrays` and the caller gets a reference to it. -/
def performRecords (op : Op) (result : Except Thrown (List MedicalRecord)) :
    Prog RecordsRef := fun s =>
  match result with
  | .ok records =>
    (.ok { index := s.arrays.length },
     { s with log := s.log ++ [{ op := op, threw := none }],
              arrays := s.arrays ++ [records] })
  | .error e => (.error e, { s with log := s.log ++ [{ op := op, threw := some e }] })

/-- The array behind a reference, as it is now. -/
def readRecords (ref : RecordsRef) : Prog (List MedicalRecord) := fun s =>
  (.ok (s.arrays.getD ref.index []), s)

/-- The expression `error.message` inside string concatenation. -/
def readMessage (w : World) (error : Thrown) : Prog String := fun s =>
  match error.messageText with
  | some message => (.ok message, s)
  | none => (.error (w.typeError error), s)

/-- Read the module variable `actor`. -/
def getActor : Prog (Option Actor) := fun s => (.ok s.actor, s)

/-- Assign the module variable `actor`. -/
def setActor (a : Actor) : Prog Unit := fun s => (.ok (), { s with actor := some a })

/-- Assign the module variable `agent`. -/
def setAgent (a : HttpAgent) : Prog Unit := fun s => (.ok (), { s with agent := some a })

/-- Read the page. -/
def getDom : Prog Dom := fun s => (.ok s.dom, s)

/-- Update the page. -/
def modifyDom (f : Dom → Dom) : Prog Unit := fun s => (.ok (), { s with dom := f s.dom })

/-- The two list containers. -/
inductive ContainerId where
  | recordsList
  | sharedRecordsList
  deriving DecidableEq, Repr

/-- The page after `document.getElementById(containerId).innerHTML = html`. -/
def Dom.setInnerHTML (d : Dom) (containerId : ContainerId) (html : String) : Dom :=
  match containerId with
  | .recordsList => { d with recordsList := html }
  | .sharedRecordsList => { d with sharedRecordsList := html }

/-- `document.getElementById(containerId).innerHTML = html` -/
def setInnerHTML (containerId : ContainerId) (html : String) : Prog Unit :=
  modifyDom fun d => d.setInnerHTML containerId html

/-- `document.getElementById(containerId).innerHTML` -/
def Dom.innerHTML (d : Dom) : ContainerId → String
  | .recordsList => d.recordsList
  | .sharedRecordsList => d.sharedRecordsList

/-! ## JavaScript string helpers -/

/-- White space and line terminators, the characters `String.prototype.trim`
strips. -/
def isJsWhiteSpace (c : Char) : Bool :=
  c.toNat == 0x9 || c.toNat == 0xA || c.toNat == 0xB || c.toNat == 0xC || c.toNat == 0xD ||
  c.toNat == 0x20 || c.toNat == 0xA0 || c.toNat == 0x1680 ||
  (0x2000 ≤ c.toNat && c.toNat ≤ 0x200A) ||
  c.toNat == 0x2028 || c.toNat == 0x2029 || c.toNat == 0x202F || c.toNat == 0x205F ||
  c.toNat == 0x3000 || c.toNat == 0xFEFF

/-- `String.prototype.trim` -/
def jsTrim (s : String) : String :=
  ⟨((s.data.dropWhile isJsWhiteSpace).reverse.dropWhile isJsWhiteSpace).reverse⟩

/-! ## The handlers -/

/-- Lines 188-192. -/
def showStatus (message type : String) : Prog Unit :=
  modifyDom fun d => { d with statusText := message, statusClass := "status " ++ type }

/-- Lines 30-34. -/
def simpleIdlFactory : IDL.ServiceClass :=
  IDL.Service [
    ("greet", IDL.Func [IDL.Text] [IDL.Text] ["query"])
  ]

/-- Lines 47-50. -/
def idlFactory.RecordInput : IDL :=
  IDL.Record [
    ("record_type", IDL.Text),
    ("content", IDL.Text)
  ]

/-- Lines 52-59. -/
def idlFactory.MedicalRecord : IDL :=
  IDL.Record [
    ("id", IDL.Text),
    ("patient_id", IDL.Principal),
    ("record_type", IDL.Text),
    ("content", IDL.Text),
    ("timestamp", IDL.Nat64),
    ("authorized_providers", IDL.Vec IDL.Principal)
  ]

/-- Lines 46-69. -/
def idlFactory : IDL.ServiceClass :=
  IDL.Service [
    ("greet", IDL.Func [IDL.Text] [IDL.Text] ["query"]),
    ("add_record", IDL.Func [idlFactory.RecordInput] [IDL.Text] []),
    ("get_my_records", IDL.Func [] [IDL.Vec idlFactory.MedicalRecord] ["query"]),
    ("share_with_provider", IDL.Func [IDL.Text, IDL.Principal] [IDL.Bool] []),
    ("get_shared_records", IDL.Func [] [IDL.Vec idlFactory.MedicalRecord] ["query"]),
    ("revoke_access", IDL.Func [IDL.Text, IDL.Principal] [IDL.Bool] [])
  ]

/-- Lines 11-82. -/
def connect (w : World) : Prog Unit :=
  tryCatch (do
    showStatus "Connecting to ICP..." "success"
    let newAgent ← perform (.newHttpAgent "http://localhost:4943")
      (w.newHttpAgent "http://localhost:4943")
    setAgent newAgent
    perform (.fetchRootKey newAgent) (w.fetchRootKey newAgent)
    let testActor ← perform (.createActor simpleIdlFactory newAgent canisterId)
      (w.createActor simpleIdlFactory newAgent canisterId)
    let _result ← perform (.greet testActor "test") (w.greet testActor "test")
    let fullActor ← perform (.createActor idlFactory newAgent canisterId)
      (w.createActor idlFactory newAgent canisterId)
    setActor fullActor
    showStatus "Connected to ICP" "success")
  (fun error => do
    showStatus ("Connection failed: " ++ (← readMessage w error)) "error")

/-- Lines 84-109. -/
def addRecord (w : World) : Prog Unit := do
  match ← getActor with
  | none => showStatus "Please connect first" "error"
  | some actor =>
    let recordType := (← getDom).recordType
    let content := (← getDom).content
    if jsTrim content = "" then
      showStatus "Please enter record content" "error"
    else
      tryCatch (do
        let recordId ← perform (.add_record actor { record_type := recordType, content := content })
          (w.add_record actor { record_type := recordType, content := content })
        showStatus ("Record added with ID: " ++ recordId) "success"
        modifyDom fun d => { d with content := "" })
        (fun error => do
          showStatus ("Failed to add record: " ++ (← readMessage w error)) "error")

/-- The markup of one record, lines 177-185. -/
def recordHtml (w : World) (record : MedicalRecord) : String :=
  "\n        <div class=\"record\">\n            <div class=\"record-type\">" ++
  w.toUpperCase record.record_type ++
  "</div>\n            <div><strong>ID:</strong> " ++
  record.id ++
  "</div>\n            <div><strong>Content:</strong> " ++
  record.content ++
  "</div>\n            <div class=\"timestamp\">Created: " ++
  w.formatTimestamp record.timestamp ++
  "</div>\n            <div><strong>Shared with:</strong> " ++
  toString record.authorized_providers.length ++
  " providers</div>\n        </div>\n    "

/-- Lines 169-186. -/
def displayRecords (w : World) (records : List MedicalRecord) (containerId : ContainerId) :
    Prog Unit :=
  if records.length = 0 then
    setInnerHTML containerId "<p>No records found.</p>"
  else
    setInnerHTML containerId (String.join (records.map (recordHtml w)))

/-- Lines 111-124. -/
def loadRecords (w : World) : Prog Unit := do
  match ← getActor with
  | none => showStatus "Please connect first" "error"
  | some actor =>
    tryCatch (do
      let records ← performRecords (.get_my_records actor) (w.get_my_records actor)
      displayRecords w (← readRecords records) .recordsList
      showStatus ("Loaded " ++ toString (← readRecords records).length ++ " records") "success")
      (fun error => do
        showStatus ("Failed to load records: " ++ (← readMessage w error)) "error")

/-- Lines 126-152. -/
def shareRecord (w : World) : Prog Unit := do
  match ← getActor with
  | none => showStatus "Please connect first" "error"
  | some actor =>
    let recordId := (← getDom).shareRecordId
    let providerId := (← getDom).providerId
    if recordId = "" ∨ providerId = "" then
      showStatus "Please enter both record ID and provider ID" "error"
    else
      tryCatch (do
        let principal ← perform (.principalFromText providerId) (w.principalFromText providerId)
        let success ← perform (.share_with_provider actor recordId principal)
          (w.share_with_provider actor recordId principal)
        if success then
          showStatus "Record shared successfully" "success"
        else
          showStatus "Failed to share record" "error")
        (fun error => do
          showStatus ("Invalid provider ID or sharing failed: " ++ (← readMessage w error))
            "error")

/-- Lines 154-167. -/
def loadSharedRecords (w : World) : Prog Unit := do
  match ← getActor with
  | none => showStatus "Please connect first" "error"
  | some actor =>
    tryCatch (do
      let records ← performRecords (.get_shared_records actor) (w.get_shared_records actor)
      displayRecords w (← readRecords records) .sharedRecordsList
      showStatus ("Loaded " ++ toString (← readRecords records).length ++ " shared records")
        "success")
      (fun error => do
        showStatus ("Failed to load shared records: " ++ (← readMessage w error)) "error")

/-- Lines 194-212. -/
def testConnection (w : World) : Prog Unit :=
  tryCatch (do
    showStatus "Testing basic connection..." "success"
    let _testAgent ← perform (.newHttpAgent "http://localhost:4943")
      (w.newHttpAgent "http://localhost:4943")
    showStatus "Basic connection test successful!" "success")
  (fun error => do
    showStatus ("Test failed: " ++ (← readMessage w error)) "error")

/-- The click handlers registered in lines 217-222. -/
inductive Handler where
  | connect
  | addRecord
  | loadRecords
  | shareRecord
  | loadSharedRecords
  | testConnection
  deriving DecidableEq, Repr

/-- The function a handler name is bound to. -/
def Handler.run : Handler → World → Prog Unit
  | .connect => MedicalRecords.connect
  | .addRecord => MedicalRecords.addRecord
  | .loadRecords => MedicalRecords.loadRecords
  | .shareRecord => MedicalRecords.shareRecord
  | .loadSharedRecords => MedicalRecords.loadSharedRecords
  | .testConnection => MedicalRecords.testConnection

/-! ## Observations on a run -/

/-- The events a run appended to the log. -/
def newEvents (before after : Sys) : List Event :=
  after.log.drop before.log.length

/-- The canister operations a run invoked, in order. -/
def canisterCalls (before after : Sys) : List Op :=
  ((newEvents before after).map Event.op).filter Op.isCanisterCall

/-- The status a handler shows with `showStatus(message, type)`. -/
def Sys.withStatus (s : Sys) (message type : String) : Sys :=
  { s with dom := { s.dom with statusText := message, statusClass := "status " ++ type } }

/-- The log after one more call. -/
def Sys.logged (s : Sys) (op : Op) (threw : Option Thrown) : Sys :=
  { s with log := s.log ++ [{ op := op, threw := threw }] }

/-- The page and agent variable once `connect` has built its agent. -/
def Sys.afterAgent (s : Sys) (ag : HttpAgent) : Sys :=
  { (s.withStatus "Connecting to ICP..." "success").logged
      (.newHttpAgent "http://localhost:4943") none with agent := some ag }

/-- The state after a list of records was loaded into container `c` with the
status `message`. -/
def Sys.loaded (s : Sys) (w : World) (op : Op) (records : List MedicalRecord)
    (c : ContainerId) (message : String) : Sys :=
  { s with
    log := s.log ++ [{ op := op, threw := none }]
    arrays := s.arrays ++ [records]
    dom := { s.dom.setInnerHTML c
        (if records.length = 0 then "<p>No records found.</p>"
         else String.join (records.map (recordHtml w))) with
      statusText := message, statusClass := "status success" } }

/-- The text each handler puts before `error.message` in its `catch` block. -/
def failureLead : Handler → String
  | .connect => "Connection failed: "
  | .addRecord => "Failed to add record: "
  | .loadRecords => "Failed to load records: "
  | .shareRecord => "Invalid provider ID or sharing failed: "
  | .loadSharedRecords => "Failed to load shared records: "
  | .testConnection => "Test failed: "

/-- How a `catch` block with lead text `lead` ends when it caught `e` in state
`s`: it shows the lead and the message, or, when `e` is `null` or `undefined`,
throws the engine's `TypeError` and shows nothing. -/
def caught (w : World) (lead : String) (e : Thrown) (s : Sys) : Except Thrown Unit × Sys :=
  match e.messageText with
  | some message => (.ok (), s.withStatus (lead ++ message) "error")
  | none => (.error (w.typeError e), s)

/-- A run ended normally with an error status and a message. -/
def FailureShown (r : Except Thrown Unit × Sys) : Prop :=
  r.1 = .ok () ∧ r.2.dom.statusClass = "status error" ∧ r.2.dom.statusText ≠ ""

/-- The first step of `connect` that throws in world `w` throws `v`. -/
def connectThrows (w : World) (v : Thrown) : Prop :=
  w.newHttpAgent "http://localhost:4943" = .error v ∨
  ∃ ag, w.newHttpAgent "http://localhost:4943" = .ok ag ∧
    (w.fetchRootKey ag = .error v ∨
     (w.fetchRootKey ag = .ok () ∧
      (w.createActor simpleIdlFactory ag canisterId = .error v ∨
       ∃ t, w.createActor simpleIdlFactory ag canisterId = .ok t ∧
        (w.greet t "test" = .error v ∨
         ((∃ r, w.greet t "test" = .ok r) ∧
          w.createActor idlFactory ag canisterId = .error v)))))

/-- The first step of `shareRecord` that throws for actor `a` and the entered
ids throws `v`. -/
def shareThrows (w : World) (a : Actor) (recordId providerId : String) (v : Thrown) : Prop :=
  w.principalFromText providerId = .error v ∨
  ∃ p, w.principalFromText providerId = .ok p ∧
    w.share_with_provider a recordId p = .error v

/-! ## Text inside text -/

/-- The text `needle` occurs in `hay` as a contiguous run of characters. -/
def occursIn (needle hay : String) : Prop := needle.data <:+: hay.data

instance (needle hay : String) : Decidable (occursIn needle hay) := by
  unfold occursIn
  infer_instance

/-- The text `hay` begins with `start`. -/
def startsWith (start hay : String) : Prop := start.data <+: hay.data

instance (start hay : String) : Decidable (startsWith start hay) := by
  unfold startsWith
  infer_instance

/-- The number of places in `hay` at which the text `needle` begins. -/
def countOccurrences (needle hay : String) : Nat :=
  (hay.data.tails.filter fun rest => needle.data.isPrefixOf rest).length

/-- The opening tag of a record element, as the template writes it. -/
def recordOpener : String := "<div class=\"record\">"

/-- A block of markup shows the record `r`: it opens a record element and
holds the id and the content of `r`, unchanged, in their fields. -/
def showsRecord (r : MedicalRecord) (block : String) : Prop :=
  startsWith "\n        <div class=\"record\">" block ∧
  occursIn ("<div><strong>ID:</strong> " ++ r.id ++ "</div>") block ∧
  occursIn ("<div><strong>Content:</strong> " ++ r.content ++ "</div>") block

instance (r : MedicalRecord) (block : String) : Decidable (showsRecord r block) := by
  unfold showsRecord
  infer_instance

/-- The names of the fields of a record type description. -/
def IDL.fieldNames : IDL → List String
  | .Record fields => fields.map Prod.fst
  | _ => []

/-! ## Sample worlds and states -/

/-- A record whose content carries markup. -/
def sampleRecord : MedicalRecord :=
  { id := "rec-1", patient_id := { bytes := [1] }, record_type := "lab",
    content := "<img src=x onerror=alert(1)>", timestamp := 1700000000000000000,
    authorized_providers := [{ bytes := [2] }] }

/-- A second record. -/
def otherRecord : MedicalRecord :=
  { id := "rec-2", patient_id := { bytes := [1] }, record_type := "note",
    content := "Hb 13.5", timestamp := 1700000001000000000,
    authorized_providers := [] }

/-- A record whose content closes its own element and opens another record
element. -/
def forgedRecord : MedicalRecord :=
  { id := "rec-9", patient_id := { bytes := [1] }, record_type := "note",
    content := "x</div></div><div class=\"record\"><div>y", timestamp := 0,
    authorized_providers := [] }

/-- A world in which every call returns. -/
def sampleWorld : World :=
  { newHttpAgent := fun _ => .ok { ref := 1 }
    fetchRootKey := fun _ => .ok ()
    createActor := fun service _ _ => .ok { ref := service.fields.length }
    principalFromText := fun text => .ok { bytes := text.data.map Char.toNat }
    greet := fun _ name => .ok ("Hello, " ++ name ++ "!")
    add_record := fun _ _ => .ok "rec-3"
    get_my_records := fun _ => .ok [sampleRecord, otherRecord]
    share_with_provider := fun _ _ _ => .ok true
    get_shared_records := fun _ => .ok []
    toUpperCase := fun s => ⟨s.data.map Char.toUpper⟩
    formatTimestamp := fun t => toString (t / 1000000)
    typeError := fun _ =>
      .object (some "Cannot read properties of null (reading 'message')") }

/-- A world in which every call throws an `Error` object. -/
def failingWorld : World :=
  { sampleWorld with
    newHttpAgent := fun _ => .error (.object (some "no agent"))
    fetchRootKey := fun _ => .error (.object (some "no root key"))
    createActor := fun _ _ _ => .error (.object (some "no actor"))
    principalFromText := fun _ => .error (.object (some "bad principal"))
    greet := fun _ _ => .error (.object (some "greet rejected"))
    add_record := fun _ _ => .error (.object (some "boom"))
    get_my_records := fun _ => .error (.object (some "offline"))
    share_with_provider := fun _ _ _ => .error (.object (some "denied"))
    get_shared_records := fun _ => .error (.object (some "offline")) }

/-- A world in which `add_record` rejects with `null`. -/
def nullWorld : World :=
  { sampleWorld with add_record := fun _ _ => .error .null }

/-- A world whose canister returns the forged record. -/
def forgedWorld : World :=
  { sampleWorld with get_my_records := fun _ => .ok [forgedRecord] }

/-- The page as loaded, before `connect`. -/
def freshSys : Sys :=
  { actor := none, agent := none, log := [], arrays := [],
    dom := { statusText := "", statusClass := "status", recordType := "lab",
             content := "Hb 13.5", shareRecordId := "rec-1", providerId := "aaaaa-aa",
             recordsList := "", sharedRecordsList := "" } }

/-- A connected page with the forms filled in. -/
def connectedSys : Sys :=
  { freshSys with actor := some { ref := 6 }, agent := some { ref := 1 } }

/-- A connected page whose content field holds white space only. -/
def blankContentSys : Sys :=
  { connectedSys with dom := { connectedSys.dom with content := " \t\n" } }

/-! ## Stepping lemmas -/

theorem bind_run {α β : Type} (x : Prog α) (f : α → Prog β) (s : Sys) :
    (x >>= f) s = match x s with
      | (.ok a, s') => f a s'
      | (.error e, s') => (.error e, s') := rfl

theorem showStatus_run (message type : String) (s : Sys) :
    showStatus message type s = (.ok (), s.withStatus message type) := rfl

theorem perform_ok {α : Type} (op : Op) (r : Except Thrown α) (a : α) (s : Sys)
    (h : r = .ok a) :
    perform op r s = (.ok a, s.logged op none) := by
  subst h; rfl

theorem perform_error {α : Type} (op : Op) (r : Except Thrown α) (e : Thrown) (s : Sys)
    (h : r = .error e) :
    perform op r s = (.error e, s.logged op (some e)) := by
  subst h; rfl

theorem performRecords_ok (op : Op) (r : Except Thrown (List MedicalRecord))
    (records : List MedicalRecord) (s : Sys) (h : r = .ok records) :
    performRecords op r s = (.ok { index := s.arrays.length },
      { s.logged op none with arrays := s.arrays ++ [records] }) := by
  subst h; rfl

theorem performRecords_error (op : Op) (r : Except Thrown (List MedicalRecord))
    (e : Thrown) (s : Sys) (h : r = .error e) :
    performRecords op r s = (.error e, s.logged op (some e)) := by
  subst h; rfl

/-- A `catch` block that shows `lead + error.message`. -/
theorem catch_run (w : World) (lead : String) (e : Thrown) (s : Sys) :
    (do showStatus (lead ++ (← readMessage w e)) "error" : Prog Unit) s
      = caught w lead e s := by
  simp only [bind_run, readMessage, caught]
  cases e.messageText <;> rfl

theorem addRecord_unconnected (w : World) (s : Sys) (hs : s.actor = none) :
    addRecord w s = (.ok (), s.withStatus "Please connect first" "error") := by
  simp [addRecord, bind_run, getActor, hs, showStatus_run]

theorem addRecord_blank (w : World) (s : Sys) (a : Actor) (hs : s.actor = some a)
    (hc : jsTrim s.dom.content = "") :
    addRecord w s = (.ok (), s.withStatus "Please enter record content" "error") := by
  simp [addRecord, bind_run, getActor, getDom, hs, hc, showStatus_run]

theorem addRecord_ok (w : World) (s : Sys) (a : Actor) (recordId : String)
    (hs : s.actor = some a) (hc : jsTrim s.dom.content ≠ "")
    (hw : w.add_record a { record_type := s.dom.recordType, content := s.dom.content }
      = .ok recordId) :
    addRecord w s = (.ok (),
      let s1 := (s.logged (.add_record a
        { record_type := s.dom.recordType, content := s.dom.content }) none).withStatus
        ("Record added with ID: " ++ recordId) "success"
      { s1 with dom := { s1.dom with content := "" } }) := by
  simp [addRecord, bind_run, getActor, getDom, hs, hc, showStatus_run, tryCatch,
    perform_ok _ _ _ _ hw, modifyDom]

theorem addRecord_throw (w : World) (s : Sys) (a : Actor) (e : Thrown)
    (hs : s.actor = some a) (hc : jsTrim s.dom.content ≠ "")
    (hw : w.add_record a { record_type := s.dom.recordType, content := s.dom.content }
      = .error e) :
    addRecord w s = caught w "Failed to add record: " e
      (s.logged (.add_record a
        { record_type := s.dom.recordType, content := s.dom.content }) (some e)) := by
  simp [addRecord, bind_run, getActor, getDom, hs, hc, tryCatch,
    perform_error _ _ _ _ hw, ← catch_run]

theorem displayRecords_run (w : World) (records : List MedicalRecord) (c : ContainerId)
    (s : Sys) :
    displayRecords w records c s = (.ok (), { s with dom := s.dom.setInnerHTML c <|
      (if records.length = 0 then "<p>No records found.</p>"
       else String.join (records.map (recordHtml w))) }) := by
  unfold displayRecords
  split <;> rfl

/-- The array just decoded is the one behind the new reference. -/
theorem getD_new_array (arrays : List (List MedicalRecord)) (records : List MedicalRecord) :
    (arrays ++ [records]).getD arrays.length [] = records := by
  rw [List.getD_append_right _ _ _ _ (Nat.le_refl _)]
  simp

theorem loadRecords_unconnected (w : World) (s : Sys) (hs : s.actor = none) :
    loadRecords w s = (.ok (), s.withStatus "Please connect first" "error") := by
  simp [loadRecords, bind_run, getActor, hs, showStatus_run]

theorem loadRecords_ok (w : World) (s : Sys) (a : Actor) (records : List MedicalRecord)
    (hs : s.actor = some a) (hw : w.get_my_records a = .ok records) :
    loadRecords w s = (.ok (), s.loaded w (.get_my_records a) records .recordsList
      ("Loaded " ++ toString records.length ++ " records")) := by
  simp [loadRecords, bind_run, getActor, hs, showStatus_run, tryCatch,
    performRecords_ok _ _ _ _ hw, displayRecords_run, readRecords, getD_new_array,
    Sys.loaded, Sys.logged, Sys.withStatus]

theorem loadRecords_throw (w : World) (s : Sys) (a : Actor) (e : Thrown)
    (hs : s.actor = some a) (hw : w.get_my_records a = .error e) :
    loadRecords w s = caught w "Failed to load records: " e
      (s.logged (.get_my_records a) (some e)) := by
  simp [loadRecords, bind_run, getActor, hs, tryCatch,
    performRecords_error _ _ _ _ hw, ← catch_run]

theorem loadSharedRecords_unconnected (w : World) (s : Sys) (hs : s.actor = none) :
    loadSharedRecords w s = (.ok (), s.withStatus "Please connect first" "error") := by
  simp [loadSharedRecords, bind_run, getActor, hs, showStatus_run]

theorem loadSharedRecords_ok (w : World) (s : Sys) (a : Actor)
    (records : List MedicalRecord)
    (hs : s.actor = some a) (hw : w.get_shared_records a = .ok records) :
    loadSharedRecords w s = (.ok (),
      s.loaded w (.get_shared_records a) records .sharedRecordsList
        ("Loaded " ++ toString records.length ++ " shared records")) := by
  simp [loadSharedRecords, bind_run, getActor, hs, showStatus_run, tryCatch,
    performRecords_ok _ _ _ _ hw, displayRecords_run, readRecords, getD_new_array,
    Sys.loaded, Sys.logged, Sys.withStatus]

theorem loadSharedRecords_throw (w : World) (s : Sys) (a : Actor) (e : Thrown)
    (hs : s.actor = some a) (hw : w.get_shared_records a = .error e) :
    loadSharedRecords w s = caught w "Failed to load shared records: " e
      (s.logged (.get_shared_records a) (some e)) := by
  simp [loadSharedRecords, bind_run, getActor, hs, tryCatch,
    performRecords_error _ _ _ _ hw, ← catch_run]

theorem shareRecord_unconnected (w : World) (s : Sys) (hs : s.actor = none) :
    shareRecord w s = (.ok (), s.withStatus "Please connect first" "error") := by
  simp [shareRecord, bind_run, getActor, hs, showStatus_run]

theorem shareRecord_missing (w : World) (s : Sys) (a : Actor) (hs : s.actor = some a)
    (hc : s.dom.shareRecordId = "" ∨ s.dom.providerId = "") :
    shareRecord w s =
      (.ok (), s.withStatus "Please enter both record ID and provider ID" "error") := by
  simp [shareRecord, bind_run, getActor, getDom, hs, hc, showStatus_run]

theorem shareRecord_badPrincipal (w : World) (s : Sys) (a : Actor) (e : Thrown)
    (hs : s.actor = some a) (hr : s.dom.shareRecordId ≠ "") (hp : s.dom.providerId ≠ "")
    (hw : w.principalFromText s.dom.providerId = .error e) :
    shareRecord w s = caught w "Invalid provider ID or sharing failed: " e
      (s.logged (.principalFromText s.dom.providerId) (some e)) := by
  simp [shareRecord, bind_run, getActor, getDom, hs, hr, hp, tryCatch,
    perform_error _ _ _ _ hw, ← catch_run]

theorem shareRecord_throw (w : World) (s : Sys) (a : Actor) (p : Principal) (e : Thrown)
    (hs : s.actor = some a) (hr : s.dom.shareRecordId ≠ "") (hp : s.dom.providerId ≠ "")
    (hw : w.principalFromText s.dom.providerId = .ok p)
    (hw2 : w.share_with_provider a s.dom.shareRecordId p = .error e) :
    shareRecord w s = caught w "Invalid provider ID or sharing failed: " e
      ((s.logged (.principalFromText s.dom.providerId) none).logged
        (.share_with_provider a s.dom.shareRecordId p) (some e)) := by
  simp [shareRecord, bind_run, getActor, getDom, hs, hr, hp, tryCatch,
    perform_ok _ _ _ _ hw, Sys.logged, perform_error _ _ _ _ hw2, ← catch_run]

theorem shareRecord_ok (w : World) (s : Sys) (a : Actor) (p : Principal) (success : Bool)
    (hs : s.actor = some a) (hr : s.dom.shareRecordId ≠ "") (hp : s.dom.providerId ≠ "")
    (hw : w.principalFromText s.dom.providerId = .ok p)
    (hw2 : w.share_with_provider a s.dom.shareRecordId p = .ok success) :
    shareRecord w s = (.ok (),
      let s1 := (s.logged (.principalFromText s.dom.providerId) none).logged
        (.share_with_provider a s.dom.shareRecordId p) none
      if success then s1.withStatus "Record shared successfully" "success"
      else s1.withStatus "Failed to share record" "error") := by
  cases success <;>
  simp [shareRecord, bind_run, getActor, getDom, hs, hr, hp, showStatus_run, tryCatch,
    perform_ok _ _ _ _ hw, Sys.logged, perform_ok _ _ _ _ hw2]

theorem testConnection_ok (w : World) (s : Sys) (ag : HttpAgent)
    (hw : w.newHttpAgent "http://localhost:4943" = .ok ag) :
    testConnection w s = (.ok (),
      ((s.withStatus "Testing basic connection..." "success").logged
        (.newHttpAgent "http://localhost:4943") none).withStatus
        "Basic connection test successful!" "success") := by
  simp [testConnection, bind_run, showStatus_run, tryCatch, perform_ok _ _ _ _ hw]

theorem testConnection_throw (w : World) (s : Sys) (e : Thrown)
    (hw : w.newHttpAgent "http://localhost:4943" = .error e) :
    testConnection w s = caught w "Test failed: " e
      ((s.withStatus "Testing basic connection..." "success").logged
        (.newHttpAgent "http://localhost:4943") (some e)) := by
  simp [testConnection, bind_run, showStatus_run, tryCatch, perform_error _ _ _ _ hw,
    ← catch_run]

theorem connect_throw_agent (w : World) (s : Sys) (e : Thrown)
    (h1 : w.newHttpAgent "http://localhost:4943" = .error e) :
    connect w s = caught w "Connection failed: " e
      ((s.withStatus "Connecting to ICP..." "success").logged
        (.newHttpAgent "http://localhost:4943") (some e)) := by
  simp [connect, bind_run, showStatus_run, tryCatch, perform_error _ _ _ _ h1, ← catch_run]

theorem connect_throw_rootKey (w : World) (s : Sys) (ag : HttpAgent) (e : Thrown)
    (h1 : w.newHttpAgent "http://localhost:4943" = .ok ag)
    (h2 : w.fetchRootKey ag = .error e) :
    connect w s = caught w "Connection failed: " e
      ((s.afterAgent ag).logged (.fetchRootKey ag) (some e)) := by
  simp [connect, bind_run, showStatus_run, tryCatch, perform_ok _ _ _ _ h1, setAgent,
    perform_error _ _ _ _ h2, Sys.afterAgent, Sys.logged, ← catch_run]

theorem connect_throw_testActor (w : World) (s : Sys) (ag : HttpAgent) (e : Thrown)
    (h1 : w.newHttpAgent "http://localhost:4943" = .ok ag)
    (h2 : w.fetchRootKey ag = .ok ())
    (h3 : w.createActor simpleIdlFactory ag canisterId = .error e) :
    connect w s = caught w "Connection failed: " e
      (((s.afterAgent ag).logged (.fetchRootKey ag) none).logged
        (.createActor simpleIdlFactory ag canisterId) (some e)) := by
  simp [connect, bind_run, showStatus_run, tryCatch, perform_ok _ _ _ _ h1, setAgent,
    perform_ok _ _ _ _ h2, perform_error _ _ _ _ h3, Sys.afterAgent, Sys.logged,
    ← catch_run]

theorem connect_throw_greet (w : World) (s : Sys) (ag : HttpAgent) (t : Actor) (e : Thrown)
    (h1 : w.newHttpAgent "http://localhost:4943" = .ok ag)
    (h2 : w.fetchRootKey ag = .ok ())
    (h3 : w.createActor simpleIdlFactory ag canisterId = .ok t)
    (h4 : w.greet t "test" = .error e) :
    connect w s = caught w "Connection failed: " e
      ((((s.afterAgent ag).logged (.fetchRootKey ag) none).logged
        (.createActor simpleIdlFactory ag canisterId) none).logged
        (.greet t "test") (some e)) := by
  simp [connect, bind_run, showStatus_run, tryCatch, perform_ok _ _ _ _ h1, setAgent,
    perform_ok _ _ _ _ h2, perform_ok _ _ _ _ h3, perform_error _ _ _ _ h4,
    Sys.afterAgent, Sys.logged, ← catch_run]

theorem connect_throw_fullActor (w : World) (s : Sys) (ag : HttpAgent) (t : Actor)
    (r : String) (e : Thrown)
    (h1 : w.newHttpAgent "http://localhost:4943" = .ok ag)
    (h2 : w.fetchRootKey ag = .ok ())
    (h3 : w.createActor simpleIdlFactory ag canisterId = .ok t)
    (h4 : w.greet t "test" = .ok r)
    (h5 : w.createActor idlFactory ag canisterId = .error e) :
    connect w s = caught w "Connection failed: " e
      (((((s.afterAgent ag).logged (.fetchRootKey ag) none).logged
        (.createActor simpleIdlFactory ag canisterId) none).logged
        (.greet t "test") none).logged
        (.createActor idlFactory ag canisterId) (some e)) := by
  simp [connect, bind_run, showStatus_run, tryCatch, perform_ok _ _ _ _ h1, setAgent,
    perform_ok _ _ _ _ h2, perform_ok _ _ _ _ h3, perform_ok _ _ _ _ h4,
    perform_error _ _ _ _ h5, Sys.afterAgent, Sys.logged, ← catch_run]

theorem connect_ok (w : World) (s : Sys) (ag : HttpAgent) (t : Actor) (r : String)
    (full : Actor)
    (h1 : w.newHttpAgent "http://localhost:4943" = .ok ag)
    (h2 : w.fetchRootKey ag = .ok ())
    (h3 : w.createActor simpleIdlFactory ag canisterId = .ok t)
    (h4 : w.greet t "test" = .ok r)
    (h5 : w.createActor idlFactory ag canisterId = .ok full) :
    connect w s = (.ok (),
      Sys.withStatus { ((((s.afterAgent ag).logged (.fetchRootKey ag) none).logged
        (.createActor simpleIdlFactory ag canisterId) none).logged
        (.greet t "test") none).logged
        (.createActor idlFactory ag canisterId) none with actor := some full }
        "Connected to ICP" "success") := by
  simp [connect, bind_run, showStatus_run, tryCatch, perform_ok _ _ _ _ h1, setAgent,
    perform_ok _ _ _ _ h2, perform_ok _ _ _ _ h3, perform_ok _ _ _ _ h4,
    perform_ok _ _ _ _ h5, Sys.afterAgent, Sys.logged, setActor]

/-! ## What a `catch` block leaves alone -/

theorem caught_of_message (w : World) (lead : String) (e : Thrown) (s : Sys) (m : String)
    (hm : e.messageText = some m) :
    caught w lead e s = (.ok (), s.withStatus (lead ++ m) "error") := by
  simp [caught, hm]

theorem caught_of_nullish (w : World) (lead : String) (e : Thrown) (s : Sys)
    (hm : e.messageText = none) :
    caught w lead e s = (.error (w.typeError e), s) := by
  simp [caught, hm]

theorem caught_log (w : World) (lead : String) (e : Thrown) (s : Sys) :
    (caught w lead e s).2.log = s.log := by
  unfold caught; split <;> rfl

theorem caught_actor (w : World) (lead : String) (e : Thrown) (s : Sys) :
    (caught w lead e s).2.actor = s.actor := by
  unfold caught; split <;> rfl

theorem caught_agent (w : World) (lead : String) (e : Thrown) (s : Sys) :
    (caught w lead e s).2.agent = s.agent := by
  unfold caught; split <;> rfl

theorem caught_content (w : World) (lead : String) (e : Thrown) (s : Sys) :
    (caught w lead e s).2.dom.content = s.dom.content ∧
    (caught w lead e s).2.dom.recordType = s.dom.recordType := by
  unfold caught; split <;> exact ⟨rfl, rfl⟩

/-! ## Every run ends in one of finitely many shapes -/

theorem addRecord_cases (w : World) (s : Sys) :
    addRecord w s = (.ok (), s.withStatus "Please connect first" "error") ∨
    addRecord w s = (.ok (), s.withStatus "Please enter record content" "error") ∨
    (∃ a recordId, addRecord w s = (.ok (),
      let s1 := (s.logged (.add_record a
        { record_type := s.dom.recordType, content := s.dom.content }) none).withStatus
        ("Record added with ID: " ++ recordId) "success"
      { s1 with dom := { s1.dom with content := "" } })) ∨
    (∃ a e, addRecord w s = caught w "Failed to add record: " e
      (s.logged (.add_record a
        { record_type := s.dom.recordType, content := s.dom.content }) (some e))) := by
  cases hs : s.actor with
  | none => exact .inl (addRecord_unconnected w s hs)
  | some a =>
    by_cases hc : jsTrim s.dom.content = ""
    · exact .inr (.inl (addRecord_blank w s a hs hc))
    · cases hw : w.add_record a { record_type := s.dom.recordType, content := s.dom.content } with
      | ok recordId => exact .inr (.inr (.inl ⟨a, recordId, addRecord_ok w s a recordId hs hc hw⟩))
      | error e => exact .inr (.inr (.inr ⟨a, e, addRecord_throw w s a e hs hc hw⟩))

theorem loadRecords_cases (w : World) (s : Sys) :
    loadRecords w s = (.ok (), s.withStatus "Please connect first" "error") ∨
    (∃ (a : Actor) (records : List MedicalRecord), loadRecords w s = (.ok (),
      s.loaded w (.get_my_records a) records .recordsList
        ("Loaded " ++ toString records.length ++ " records"))) ∨
    (∃ a e, loadRecords w s = caught w "Failed to load records: " e
      (s.logged (.get_my_records a) (some e))) := by
  cases hs : s.actor with
  | none => exact .inl (loadRecords_unconnected w s hs)
  | some a =>
    cases hw : w.get_my_records a with
    | ok records => exact .inr (.inl ⟨a, records, loadRecords_ok w s a records hs hw⟩)
    | error e => exact .inr (.inr ⟨a, e, loadRecords_throw w s a e hs hw⟩)

theorem loadSharedRecords_cases (w : World) (s : Sys) :
    loadSharedRecords w s = (.ok (), s.withStatus "Please connect first" "error") ∨
    (∃ (a : Actor) (records : List MedicalRecord), loadSharedRecords w s = (.ok (),
      s.loaded w (.get_shared_records a) records .sharedRecordsList
        ("Loaded " ++ toString records.length ++ " shared records"))) ∨
    (∃ a e, loadSharedRecords w s = caught w "Failed to load shared records: " e
      (s.logged (.get_shared_records a) (some e))) := by
  cases hs : s.actor with
  | none => exact .inl (loadSharedRecords_unconnected w s hs)
  | some a =>
    cases hw : w.get_shared_records a with
    | ok records => exact .inr (.inl ⟨a, records, loadSharedRecords_ok w s a records hs hw⟩)
    | error e => exact .inr (.inr ⟨a, e, loadSharedRecords_throw w s a e hs hw⟩)

theorem shareRecord_cases (w : World) (s : Sys) :
    shareRecord w s = (.ok (), s.withStatus "Please connect first" "error") ∨
    shareRecord w s =
      (.ok (), s.withStatus "Please enter both record ID and provider ID" "error") ∨
    (∃ e, shareRecord w s = caught w "Invalid provider ID or sharing failed: " e
      (s.logged (.principalFromText s.dom.providerId) (some e))) ∨
    (∃ a p e, shareRecord w s = caught w "Invalid provider ID or sharing failed: " e
      ((s.logged (.principalFromText s.dom.providerId) none).logged
        (.share_with_provider a s.dom.shareRecordId p) (some e))) ∨
    (∃ (a : Actor) (p : Principal) (success : Bool), shareRecord w s = (.ok (),
      let s1 := (s.logged (.principalFromText s.dom.providerId) none).logged
        (.share_with_provider a s.dom.shareRecordId p) none
      if success then s1.withStatus "Record shared successfully" "success"
      else s1.withStatus "Failed to share record" "error")) := by
  cases hs : s.actor with
  | none => exact .inl (shareRecord_unconnected w s hs)
  | some a =>
    by_cases hc : s.dom.shareRecordId = "" ∨ s.dom.providerId = ""
    · exact .inr (.inl (shareRecord_missing w s a hs hc))
    · have hr : s.dom.shareRecordId ≠ "" := fun h => hc (.inl h)
      have hp : s.dom.providerId ≠ "" := fun h => hc (.inr h)
      cases hw : w.principalFromText s.dom.providerId with
      | error e => exact .inr (.inr (.inl ⟨e, shareRecord_badPrincipal w s a e hs hr hp hw⟩))
      | ok p =>
        cases hw2 : w.share_with_provider a s.dom.shareRecordId p with
        | error e =>
          exact .inr (.inr (.inr (.inl ⟨a, p, e, shareRecord_throw w s a p e hs hr hp hw hw2⟩)))
        | ok success =>
          exact .inr (.inr (.inr (.inr
            ⟨a, p, success, shareRecord_ok w s a p success hs hr hp hw hw2⟩)))

theorem testConnection_cases (w : World) (s : Sys) :
    testConnection w s = (.ok (),
      ((s.withStatus "Testing basic connection..." "success").logged
        (.newHttpAgent "http://localhost:4943") none).withStatus
        "Basic connection test successful!" "success") ∨
    (∃ e, testConnection w s = caught w "Test failed: " e
      ((s.withStatus "Testing basic connection..." "success").logged
        (.newHttpAgent "http://localhost:4943") (some e))) := by
  cases hw : w.newHttpAgent "http://localhost:4943" with
  | ok ag => exact .inl (testConnection_ok w s ag hw)
  | error e => exact .inr ⟨e, testConnection_throw w s e hw⟩

theorem connect_cases (w : World) (s : Sys) :
    (∃ e, connect w s = caught w "Connection failed: " e
      ((s.withStatus "Connecting to ICP..." "success").logged
        (.newHttpAgent "http://localhost:4943") (some e))) ∨
    (∃ ag e, connect w s = caught w "Connection failed: " e
      ((s.afterAgent ag).logged (.fetchRootKey ag) (some e))) ∨
    (∃ ag e, connect w s = caught w "Connection failed: " e
      (((s.afterAgent ag).logged (.fetchRootKey ag) none).logged
        (.createActor simpleIdlFactory ag canisterId) (some e))) ∨
    (∃ ag t e, connect w s = caught w "Connection failed: " e
      ((((s.afterAgent ag).logged (.fetchRootKey ag) none).logged
        (.createActor simpleIdlFactory ag canisterId) none).logged
        (.greet t "test") (some e))) ∨
    (∃ ag t e, connect w s = caught w "Connection failed: " e
      (((((s.afterAgent ag).logged (.fetchRootKey ag) none).logged
        (.createActor simpleIdlFactory ag canisterId) none).logged
        (.greet t "test") none).logged
        (.createActor idlFactory ag canisterId) (some e))) ∨
    (∃ ag t full, connect w s = (.ok (),
      Sys.withStatus { ((((s.afterAgent ag).logged (.fetchRootKey ag) none).logged
        (.createActor simpleIdlFactory ag canisterId) none).logged
        (.greet t "test") none).logged
        (.createActor idlFactory ag canisterId) none with actor := some full }
        "Connected to ICP" "success")) := by
  cases h1 : w.newHttpAgent "http://localhost:4943" with
  | error e => exact .inl ⟨e, connect_throw_agent w s e h1⟩
  | ok ag =>
    cases h2 : w.fetchRootKey ag with
    | error e => exact .inr (.inl ⟨ag, e, connect_throw_rootKey w s ag e h1 h2⟩)
    | ok u =>
      cases h3 : w.createActor simpleIdlFactory ag canisterId with
      | error e => exact .inr (.inr (.inl ⟨ag, e, connect_throw_testActor w s ag e h1 h2 h3⟩))
      | ok t =>
        cases h4 : w.greet t "test" with
        | error e =>
          exact .inr (.inr (.inr (.inl ⟨ag, t, e, connect_throw_greet w s ag t e h1 h2 h3 h4⟩)))
        | ok r =>
          cases h5 : w.createActor idlFactory ag canisterId with
          | error e =>
            exact .inr (.inr (.inr (.inr (.inl
              ⟨ag, t, e, connect_throw_fullActor w s ag t r e h1 h2 h3 h4 h5⟩))))
          | ok full =>
            exact .inr (.inr (.inr (.inr (.inr
              ⟨ag, t, full, connect_ok w s ag t r full h1 h2 h3 h4 h5⟩))))

/-- When a call made by a handler threw `e` and `e` is not `null` or
`undefined`, the handler completes and the status shows the handler's lead text
followed by the message of `e`, with class "status error". -/
theorem thrown_status (h : Handler) (w : World) (s : Sys) (e : Thrown) (m : String)
    (hev : ∃ ev ∈ newEvents s (h.run w s).2, ev.threw = some e)
    (hm : e.messageText = some m) :
    (h.run w s).1 = .ok () ∧
    (h.run w s).2.dom.statusText = failureLead h ++ m ∧
    (h.run w s).2.dom.statusClass = "status error" := by
  cases h
  · rcases connect_cases w s with ⟨_, k⟩ | ⟨_, _, k⟩ | ⟨_, _, k⟩ | ⟨_, _, _, k⟩ |
      ⟨_, _, _, k⟩ | ⟨_, _, _, k⟩
    all_goals simp only [Handler.run, k] at hev ⊢
    all_goals simp [newEvents, caught_log, Sys.withStatus, Sys.logged, Sys.afterAgent] at hev
    all_goals subst hev
    all_goals simp [caught_of_message _ _ _ _ _ hm, Sys.withStatus, failureLead]
  · rcases addRecord_cases w s with k | k | ⟨_, _, k⟩ | ⟨_, _, k⟩
    all_goals simp only [Handler.run, k] at hev ⊢
    all_goals simp [newEvents, caught_log, Sys.withStatus, Sys.logged] at hev
    all_goals subst hev
    all_goals simp [caught_of_message _ _ _ _ _ hm, Sys.withStatus, failureLead]
  · rcases loadRecords_cases w s with k | ⟨_, _, k⟩ | ⟨_, _, k⟩
    all_goals simp only [Handler.run, k] at hev ⊢
    all_goals simp [newEvents, caught_log, Sys.withStatus, Sys.logged, Sys.loaded] at hev
    all_goals subst hev
    all_goals simp [caught_of_message _ _ _ _ _ hm, Sys.withStatus, failureLead]
  · rcases shareRecord_cases w s with k | k | ⟨_, k⟩ | ⟨_, _, _, k⟩ | ⟨_, _, success, k⟩
    · simp only [Handler.run, k] at hev ⊢
      simp [newEvents, Sys.withStatus] at hev
    · simp only [Handler.run, k] at hev ⊢
      simp [newEvents, Sys.withStatus] at hev
    · simp only [Handler.run, k] at hev ⊢
      simp [newEvents, caught_log, Sys.withStatus, Sys.logged] at hev
      subst hev
      simp [caught_of_message _ _ _ _ _ hm, Sys.withStatus, failureLead]
    · simp only [Handler.run, k] at hev ⊢
      simp [newEvents, caught_log, Sys.withStatus, Sys.logged] at hev
      subst hev
      simp [caught_of_message _ _ _ _ _ hm, Sys.withStatus, failureLead]
    · cases success
      all_goals simp only [Handler.run, k] at hev ⊢
      all_goals simp [newEvents, Sys.withStatus, Sys.logged] at hev
  · rcases loadSharedRecords_cases w s with k | ⟨_, _, k⟩ | ⟨_, _, k⟩
    all_goals simp only [Handler.run, k] at hev ⊢
    all_goals simp [newEvents, caught_log, Sys.withStatus, Sys.logged, Sys.loaded] at hev
    all_goals subst hev
    all_goals simp [caught_of_message _ _ _ _ _ hm, Sys.withStatus, failureLead]
  · rcases testConnection_cases w s with k | ⟨_, k⟩
    all_goals simp only [Handler.run, k] at hev ⊢
    all_goals simp [newEvents, caught_log, Sys.withStatus, Sys.logged] at hev
    all_goals subst hev
    all_goals simp [caught_of_message _ _ _ _ _ hm, Sys.withStatus, failureLead]

/-- A run in which no call threw `null` or `undefined` completes normally. -/
theorem completes_unless_nullish (h : Handler) (w : World) (s : Sys)
    (hev : ∀ ev ∈ newEvents s (h.run w s).2, ∀ v, ev.threw = some v → v.messageText ≠ none) :
    (h.run w s).1 = .ok () := by
  have key : ∀ (lead : String) (e : Thrown) (s' : Sys),
      e.messageText ≠ none → (caught w lead e s').1 = .ok () := by
    intro lead e s' hne
    cases hm : e.messageText with
    | none => exact absurd hm hne
    | some m => rw [caught_of_message _ _ _ _ _ hm]
  cases h
  · rcases connect_cases w s with ⟨e, k⟩ | ⟨_, e, k⟩ | ⟨_, e, k⟩ | ⟨_, _, e, k⟩ |
      ⟨_, _, e, k⟩ | ⟨_, _, _, k⟩
    all_goals simp only [Handler.run, k] at hev ⊢
    all_goals apply key
    all_goals simp [newEvents, caught_log, Sys.withStatus, Sys.logged, Sys.afterAgent] at hev
    all_goals exact hev
  · rcases addRecord_cases w s with k | k | ⟨_, _, k⟩ | ⟨_, e, k⟩
    all_goals simp only [Handler.run, k] at hev ⊢
    all_goals apply key
    all_goals simp [newEvents, caught_log, Sys.withStatus, Sys.logged] at hev
    all_goals exact hev
  · rcases loadRecords_cases w s with k | ⟨_, _, k⟩ | ⟨_, e, k⟩
    all_goals simp only [Handler.run, k] at hev ⊢
    all_goals apply key
    all_goals simp [newEvents, caught_log, Sys.withStatus, Sys.logged] at hev
    all_goals exact hev
  · rcases shareRecord_cases w s with k | k | ⟨e, k⟩ | ⟨_, _, e, k⟩ | ⟨_, _, success, k⟩
    · simp only [Handler.run, k]
    · simp only [Handler.run, k]
    · simp only [Handler.run, k] at hev ⊢
      apply key
      simp [newEvents, caught_log, Sys.withStatus, Sys.logged] at hev
      exact hev
    · simp only [Handler.run, k] at hev ⊢
      apply key
      simp [newEvents, caught_log, Sys.withStatus, Sys.logged] at hev
      exact hev
    · simp only [Handler.run, k]
  · rcases loadSharedRecords_cases w s with k | ⟨_, _, k⟩ | ⟨_, e, k⟩
    all_goals simp only [Handler.run, k] at hev ⊢
    all_goals apply key
    all_goals simp [newEvents, caught_log, Sys.withStatus, Sys.logged] at hev
    all_goals exact hev
  · rcases testConnection_cases w s with k | ⟨e, k⟩
    all_goals simp only [Handler.run, k] at hev ⊢
    all_goals apply key
    all_goals simp [newEvents, caught_log, Sys.withStatus, Sys.logged] at hev
    all_goals exact hev

/-- No run invokes more than one canister operation. -/
theorem canisterCalls_length_le_one (h : Handler) (w : World) (s : Sys) :
    (canisterCalls s (h.run w s).2).length ≤ 1 := by
  cases h
  · rcases connect_cases w s with ⟨_, k⟩ | ⟨_, _, k⟩ | ⟨_, _, k⟩ | ⟨_, _, _, k⟩ |
      ⟨_, _, _, k⟩ | ⟨_, _, _, k⟩ <;>
    simp [Handler.run, k, canisterCalls, newEvents, caught_log, Sys.withStatus, Sys.logged,
      Sys.afterAgent, Op.isCanisterCall]
  · rcases addRecord_cases w s with k | k | ⟨_, _, k⟩ | ⟨_, _, k⟩ <;>
    simp [Handler.run, k, canisterCalls, newEvents, caught_log, Sys.withStatus, Sys.logged,
      Op.isCanisterCall]
  · rcases loadRecords_cases w s with k | ⟨_, _, k⟩ | ⟨_, _, k⟩ <;>
    simp [Handler.run, k, canisterCalls, newEvents, caught_log, Sys.withStatus, Sys.logged,
      Sys.loaded, Op.isCanisterCall]
  · rcases shareRecord_cases w s with k | k | ⟨_, k⟩ | ⟨_, _, _, k⟩ | ⟨_, _, success, k⟩
    · simp [Handler.run, k, canisterCalls, newEvents, Sys.withStatus]
    · simp [Handler.run, k, canisterCalls, newEvents, Sys.withStatus]
    · simp [Handler.run, k, canisterCalls, newEvents, caught_log, Sys.withStatus, Sys.logged,
        Op.isCanisterCall]
    · simp [Handler.run, k, canisterCalls, newEvents, caught_log, Sys.withStatus, Sys.logged,
        Op.isCanisterCall]
    · cases success <;>
      simp [Handler.run, k, canisterCalls, newEvents, Sys.withStatus, Sys.logged,
        Op.isCanisterCall]
  · rcases loadSharedRecords_cases w s with k | ⟨_, _, k⟩ | ⟨_, _, k⟩ <;>
    simp [Handler.run, k, canisterCalls, newEvents, caught_log, Sys.withStatus, Sys.logged,
      Sys.loaded, Op.isCanisterCall]
  · rcases testConnection_cases w s with k | ⟨_, k⟩ <;>
    simp [Handler.run, k, canisterCalls, newEvents, caught_log, Sys.withStatus, Sys.logged,
      Op.isCanisterCall]

/-- Handlers other than `connect` never assign `actor` or `agent`. -/
theorem module_variables_frame (h : Handler) (w : World) (s : Sys) (hh : h ≠ .connect) :
    (h.run w s).2.actor = s.actor ∧ (h.run w s).2.agent = s.agent := by
  cases h
  · exact absurd rfl hh
  · rcases addRecord_cases w s with k | k | ⟨_, _, k⟩ | ⟨_, _, k⟩ <;>
    simp [Handler.run, k, caught_actor, caught_agent, Sys.withStatus, Sys.logged]
  · rcases loadRecords_cases w s with k | ⟨_, _, k⟩ | ⟨_, _, k⟩ <;>
    simp [Handler.run, k, caught_actor, caught_agent, Sys.withStatus, Sys.logged, Sys.loaded]
  · rcases shareRecord_cases w s with k | k | ⟨_, k⟩ | ⟨_, _, _, k⟩ | ⟨_, _, success, k⟩
    · simp [Handler.run, k, Sys.withStatus]
    · simp [Handler.run, k, Sys.withStatus]
    · simp [Handler.run, k, caught_actor, caught_agent, Sys.withStatus, Sys.logged]
    · simp [Handler.run, k, caught_actor, caught_agent, Sys.withStatus, Sys.logged]
    · cases success <;> simp [Handler.run, k, Sys.withStatus, Sys.logged]
  · rcases loadSharedRecords_cases w s with k | ⟨_, _, k⟩ | ⟨_, _, k⟩ <;>
    simp [Handler.run, k, caught_actor, caught_agent, Sys.withStatus, Sys.logged, Sys.loaded]
  · rcases testConnection_cases w s with k | ⟨_, k⟩ <;>
    simp [Handler.run, k, caught_actor, caught_agent, Sys.withStatus, Sys.logged]

/-- A run of `connect` either leaves `actor` as it was, or logged its five
steps as returned. -/
theorem connect_actor_cases (w : World) (s : Sys) :
    ((connect w s).2.actor = s.actor ∧
      ∃ ev ∈ newEvents s (connect w s).2, ev.threw.isSome = true) ∨
    ∃ ag t full, (connect w s).2.actor = some full ∧
      newEvents s (connect w s).2 =
        [{ op := .newHttpAgent "http://localhost:4943", threw := none },
         { op := .fetchRootKey ag, threw := none },
         { op := .createActor simpleIdlFactory ag canisterId, threw := none },
         { op := .greet t "test", threw := none },
         { op := .createActor idlFactory ag canisterId, threw := none }] := by
  rcases connect_cases w s with ⟨_, k⟩ | ⟨_, _, k⟩ | ⟨_, _, k⟩ | ⟨_, _, _, k⟩ |
      ⟨_, _, _, k⟩ | ⟨ag, t, full, k⟩
  · left; simp [k, newEvents, caught_log, caught_actor, Sys.withStatus, Sys.logged]
  · left
    simp [k, newEvents, caught_log, caught_actor, Sys.withStatus, Sys.logged, Sys.afterAgent]
  · left
    simp [k, newEvents, caught_log, caught_actor, Sys.withStatus, Sys.logged, Sys.afterAgent]
  · left
    simp [k, newEvents, caught_log, caught_actor, Sys.withStatus, Sys.logged, Sys.afterAgent]
  · left
    simp [k, newEvents, caught_log, caught_actor, Sys.withStatus, Sys.logged, Sys.afterAgent]
  · right
    refine ⟨ag, t, full, ?_, ?_⟩ <;>
    simp [k, newEvents, Sys.withStatus, Sys.logged, Sys.afterAgent]

/-! ## Lemmas on text inside text -/

theorem occursIn_mid (a n b : String) : occursIn n (a ++ n ++ b) := by
  unfold occursIn
  rw [String.data_append, String.data_append]
  exact List.infix_append a.data n.data b.data

theorem occursIn_trans {a b c : String} (h1 : occursIn a b) (h2 : occursIn b c) :
    occursIn a c :=
  List.IsInfix.trans h1 h2

theorem occursIn_join {x : String} {l : List String} (h : x ∈ l) :
    occursIn x (String.join l) := by
  unfold occursIn
  rw [String.data_join]
  exact List.infix_of_mem_flatten (List.mem_map_of_mem String.data h)

/-- The markup of a record carries its upper-cased type, its id and its
content between the fixed pieces of the template. -/
theorem recordHtml_shows (w : World) (r : MedicalRecord) :
    startsWith "\n        <div class=\"record\">" (recordHtml w r) ∧
    occursIn ("<div class=\"record-type\">" ++ w.toUpperCase r.record_type ++ "</div>")
      (recordHtml w r) ∧
    occursIn ("<div><strong>ID:</strong> " ++ r.id ++ "</div>") (recordHtml w r) ∧
    occursIn ("<div><strong>Content:</strong> " ++ r.content ++ "</div>")
      (recordHtml w r) := by
  have e1 : ("\n        <div class=\"record\">\n            <div class=\"record-type\">"
      : String) = "\n        <div class=\"record\">" ++
        ("\n            " ++ "<div class=\"record-type\">") := by decide
  have e2 : ("</div>\n            <div><strong>ID:</strong> " : String) =
      "</div>" ++ ("\n            " ++ "<div><strong>ID:</strong> ") := by decide
  have e3 : ("</div>\n            <div><strong>Content:</strong> " : String) =
      "</div>" ++ ("\n            " ++ "<div><strong>Content:</strong> ") := by decide
  have e4 : ("</div>\n            <div class=\"timestamp\">Created: " : String) =
      "</div>" ++ "\n            <div class=\"timestamp\">Created: " := by decide
  refine ⟨?_, ?_, ?_, ?_⟩
  · unfold recordHtml startsWith
    rw [e1]
    simp only [String.append_assoc, String.data_append]
    exact List.prefix_append _ _
  · have h : recordHtml w r = ("\n        <div class=\"record\">" ++ "\n            ") ++
        ("<div class=\"record-type\">" ++ w.toUpperCase r.record_type ++ "</div>") ++
        ("\n            " ++ "<div><strong>ID:</strong> " ++ r.id ++
        "</div>\n            <div><strong>Content:</strong> " ++ r.content ++
        "</div>\n            <div class=\"timestamp\">Created: " ++
        w.formatTimestamp r.timestamp ++
        "</div>\n            <div><strong>Shared with:</strong> " ++
        toString r.authorized_providers.length ++
        " providers</div>\n        </div>\n    ") := by
      unfold recordHtml
      rw [e1, e2]
      simp only [String.append_assoc]
    rw [h]
    exact occursIn_mid _ _ _
  · have h : recordHtml w r =
        ("\n        <div class=\"record\">\n            <div class=\"record-type\">" ++
        w.toUpperCase r.record_type ++ "</div>" ++ "\n            ") ++
        ("<div><strong>ID:</strong> " ++ r.id ++ "</div>") ++
        ("\n            " ++ "<div><strong>Content:</strong> " ++ r.content ++
        "</div>\n            <div class=\"timestamp\">Created: " ++
        w.formatTimestamp r.timestamp ++
        "</div>\n            <div><strong>Shared with:</strong> " ++
        toString r.authorized_providers.length ++
        " providers</div>\n        </div>\n    ") := by
      unfold recordHtml
      rw [e2, e3]
      simp only [String.append_assoc]
    rw [h]
    exact occursIn_mid _ _ _
  · have h : recordHtml w r =
        ("\n        <div class=\"record\">\n            <div class=\"record-type\">" ++
        w.toUpperCase r.record_type ++
        "</div>\n            <div><strong>ID:</strong> " ++ r.id ++
        "</div>" ++ "\n            ") ++
        ("<div><strong>Content:</strong> " ++ r.content ++ "</div>") ++
        ("\n            <div class=\"timestamp\">Created: " ++
        w.formatTimestamp r.timestamp ++
        "</div>\n            <div><strong>Shared with:</strong> " ++
        toString r.authorized_providers.length ++
        " providers</div>\n        </div>\n    ") := by
      unfold recordHtml
      rw [e3, e4]
      simp only [String.append_assoc]
    rw [h]
    exact occursIn_mid _ _ _

/-! ## Trimming -/

theorem mk_eq_empty_iff (l : List Char) : String.mk l = "" ↔ l = [] := by
  constructor
  · intro h
    exact congrArg String.data h
  · intro h
    subst h
    rfl

/-- `trim()` yields the empty string exactly on strings made of white space. -/
theorem jsTrim_eq_empty_iff (s : String) :
    jsTrim s = "" ↔ ∀ c ∈ s.data, isJsWhiteSpace c = true := by
  unfold jsTrim
  rw [mk_eq_empty_iff, List.reverse_eq_nil_iff, List.dropWhile_eq_nil_iff]
  constructor
  · intro h
    by_cases hd : s.data.dropWhile isJsWhiteSpace = []
    · exact List.dropWhile_eq_nil_iff.mp hd
    · have h1 := List.head_dropWhile_not isJsWhiteSpace s.data hd
      have h2 := h _ (List.mem_reverse.mpr (List.head_mem hd))
      rw [h1] at h2
      exact absurd h2 (by decide)
  · intro h c hc
    have hd : s.data.dropWhile isJsWhiteSpace = [] := List.dropWhile_eq_nil_iff.mpr h
    rw [hd] at hc
    simp at hc


/-! ## Joining blocks -/

/-- Joining with the empty separator puts the first text before the join of
the rest. -/
theorem join_cons (x : String) (l : List String) :
    String.join (x :: l) = x ++ String.join l := by
  apply String.ext
  rw [String.data_join, String.data_append, String.data_join]
  simp

/-! ## A caught failure is shown -/

theorem append_ne_empty (lead m : String) (hl : 0 < lead.length) : lead ++ m ≠ "" := by
  intro h0
  have hlen := congrArg String.length h0
  rw [String.length_append] at hlen
  have : ("" : String).length = 0 := rfl
  omega

theorem caught_failureShown (w : World) (lead : String) (e : Thrown) (s : Sys)
    (hm : e.messageText ≠ none) (hl : 0 < lead.length) :
    FailureShown (caught w lead e s) := by
  cases hmt : e.messageText with
  | none => exact absurd hmt hm
  | some m =>
    rw [caught_of_message _ _ _ _ _ hmt]
    exact ⟨rfl, rfl, append_ne_empty lead m hl⟩

/-! ## Claims -/

/-- C8: while the actor handle is unset, each of addRecord, loadRecords,
shareRecord and loadSharedRecords completes, performs no outside call, shows
"Please connect first" with class "status error", and changes nothing else. -/
theorem not_connected_guard (w : World) (s : Sys) (h : Handler)
    (hs : s.actor = none)
    (hh : h = .addRecord ∨ h = .loadRecords ∨ h = .shareRecord ∨ h = .loadSharedRecords) :
    h.run w s = (.ok (), { s with dom := { s.dom with
      statusText := "Please connect first", statusClass := "status error" } }) ∧
    newEvents s (h.run w s).2 = [] ∧ canisterCalls s (h.run w s).2 = [] := by
  have key : h.run w s = (.ok (), s.withStatus "Please connect first" "error") := by
    rcases hh with rfl | rfl | rfl | rfl
    · exact addRecord_unconnected w s hs
    · exact loadRecords_unconnected w s hs
    · exact shareRecord_unconnected w s hs
    · exact loadSharedRecords_unconnected w s hs
  rw [key]
  refine ⟨rfl, ?_, ?_⟩ <;> simp [newEvents, canisterCalls, Sys.withStatus]

theorem not_connected_guard_witness :
    Handler.shareRecord.run failingWorld freshSys = (.ok (), { freshSys with dom :=
      { freshSys.dom with
        statusText := "Please connect first", statusClass := "status error" } }) ∧
    newEvents freshSys (Handler.shareRecord.run failingWorld freshSys).2 = [] ∧
    canisterCalls freshSys (Handler.shareRecord.run failingWorld freshSys).2 = [] :=
  not_connected_guard failingWorld freshSys .shareRecord rfl (by decide)

/-- C4: on a connected page, addRecord with content made of white space only
(the empty string included) and shareRecord with an empty record id or an empty
provider id complete without any outside call, show their validation message
with class "status error", and leave every form field, both list containers
and the module variables as they were. -/
theorem validation_before_remote_call (w : World) (s : Sys) (a : Actor)
    (hs : s.actor = some a) :
    ((∀ c ∈ s.dom.content.data, isJsWhiteSpace c = true) →
      addRecord w s = (.ok (), { s with dom := { s.dom with
        statusText := "Please enter record content", statusClass := "status error" } }) ∧
      newEvents s (addRecord w s).2 = []) ∧
    ((s.dom.shareRecordId = "" ∨ s.dom.providerId = "") →
      shareRecord w s = (.ok (), { s with dom := { s.dom with
        statusText := "Please enter both record ID and provider ID",
        statusClass := "status error" } }) ∧
      newEvents s (shareRecord w s).2 = []) := by
  constructor
  · intro hc
    rw [addRecord_blank w s a hs ((jsTrim_eq_empty_iff _).mpr hc)]
    exact ⟨rfl, by simp [newEvents, Sys.withStatus]⟩
  · intro hc
    rw [shareRecord_missing w s a hs hc]
    exact ⟨rfl, by simp [newEvents, Sys.withStatus]⟩

theorem validation_before_remote_call_witness :
    (addRecord sampleWorld blankContentSys).2.log = [] ∧
    (addRecord sampleWorld blankContentSys).2.dom.statusText
      = "Please enter record content" ∧
    (addRecord sampleWorld blankContentSys).2.dom.content = " \t\n" := by
  have h := (validation_before_remote_call sampleWorld blankContentSys { ref := 6 } rfl).1
    (by decide)
  rw [h.1]
  exact ⟨rfl, rfl, rfl⟩

/-- C7: addRecord, loadRecords, shareRecord, loadSharedRecords and
testConnection leave the module variables actor and agent unchanged on every
path; a run of connect in which any step threw leaves actor at its previous
value; and a run of connect that does not leave actor as it was has logged the
agent construction, the root-key fetch, the test-actor creation, the greet probe
and the full-actor creation, all as returned, and holds the new actor. -/
theorem connection_handle_frame (w : World) (s : Sys) :
    (∀ h : Handler, h ≠ .connect →
      (h.run w s).2.actor = s.actor ∧ (h.run w s).2.agent = s.agent) ∧
    ((∃ ev ∈ newEvents s (connect w s).2, ev.threw.isSome = true) →
      (connect w s).2.actor = s.actor) ∧
    ((connect w s).2.actor ≠ s.actor →
      ∃ ag t full, (connect w s).2.actor = some full ∧
        newEvents s (connect w s).2 =
          [{ op := .newHttpAgent "http://localhost:4943", threw := none },
           { op := .fetchRootKey ag, threw := none },
           { op := .createActor simpleIdlFactory ag canisterId, threw := none },
           { op := .greet t "test", threw := none },
           { op := .createActor idlFactory ag canisterId, threw := none }]) := by
  refine ⟨fun h hh => module_variables_frame h w s hh, ?_, ?_⟩
  · rintro ⟨ev, hmem, hsome⟩
    rcases connect_actor_cases w s with ⟨hk, _⟩ | ⟨ag, t, full, _, hlog⟩
    · exact hk
    · rw [hlog] at hmem
      simp at hmem
      rcases hmem with rfl | rfl | rfl | rfl | rfl <;> simp at hsome
  · intro hne
    rcases connect_actor_cases w s with ⟨hk, _⟩ | hk
    · exact absurd hk hne
    · exact hk

theorem connection_handle_frame_witness :
    (Handler.addRecord.run sampleWorld connectedSys).2.actor = some { ref := 6 } ∧
    (connect failingWorld connectedSys).2.actor = some { ref := 6 } ∧
    (connect sampleWorld freshSys).2.actor = some { ref := 6 } := by
  have h := connection_handle_frame sampleWorld connectedSys
  have hf := connection_handle_frame failingWorld connectedSys
  exact ⟨(h.1 .addRecord (by decide)).1, hf.2.1 (by decide), by decide⟩

set_option maxRecDepth 100000 in
/-- The sample record rendered alone: its img tag is in the output, and no
escaped "&lt;" is. -/
theorem sampleRecord_rendered :
    occursIn "<img src=x onerror=alert(1)>" sampleRecord.content ∧
    occursIn "<img src=x onerror=alert(1)>"
      ((displayRecords sampleWorld [sampleRecord] .recordsList freshSys).2.dom.innerHTML
        .recordsList) ∧
    ¬ occursIn "&lt;"
      ((displayRecords sampleWorld [sampleRecord] .recordsList freshSys).2.dom.innerHTML
        .recordsList) := by
  decide

/-- C10: for every non-empty list of records, the HTML that displayRecords
assigns to the container contains each record's id, its content and its
upper-cased record type as verbatim substrings, hence every piece of markup
occurring in a record's content; and for the sample record, whose content is an
img tag with an onerror attribute, the rendered output contains that tag
unmodified and no escaped "&lt;". -/
theorem displayRecords_inserts_unescaped (w : World) (s : Sys) (c : ContainerId)
    (records : List MedicalRecord) (hne : records ≠ []) :
    (∀ r ∈ records,
      occursIn r.id ((displayRecords w records c s).2.dom.innerHTML c) ∧
      occursIn r.content ((displayRecords w records c s).2.dom.innerHTML c) ∧
      occursIn (w.toUpperCase r.record_type)
        ((displayRecords w records c s).2.dom.innerHTML c) ∧
      ∀ markup, occursIn markup r.content →
        occursIn markup ((displayRecords w records c s).2.dom.innerHTML c)) ∧
    (occursIn "<img src=x onerror=alert(1)>" sampleRecord.content ∧
      occursIn "<img src=x onerror=alert(1)>"
        ((displayRecords sampleWorld [sampleRecord] .recordsList freshSys).2.dom.innerHTML
          .recordsList) ∧
      ¬ occursIn "&lt;"
        ((displayRecords sampleWorld [sampleRecord] .recordsList freshSys).2.dom.innerHTML
          .recordsList)) := by
  have hlen : records.length ≠ 0 := fun h => hne (List.length_eq_zero.mp h)
  have hhtml : (displayRecords w records c s).2.dom.innerHTML c
      = String.join (records.map (recordHtml w)) := by
    rw [displayRecords_run]
    cases c <;> simp [Dom.setInnerHTML, Dom.innerHTML, hlen]
  refine ⟨?_, sampleRecord_rendered⟩
  intro r hr
  rw [hhtml]
  have hin : occursIn (recordHtml w r) (String.join (records.map (recordHtml w))) :=
    occursIn_join (List.mem_map_of_mem _ hr)
  have hshow := recordHtml_shows w r
  have hid : occursIn r.id (recordHtml w r) :=
    occursIn_trans (occursIn_mid _ _ _) hshow.2.2.1
  have hcontent : occursIn r.content (recordHtml w r) :=
    occursIn_trans (occursIn_mid _ _ _) hshow.2.2.2
  have htype : occursIn (w.toUpperCase r.record_type) (recordHtml w r) :=
    occursIn_trans (occursIn_mid _ _ _) hshow.2.1
  exact ⟨occursIn_trans hid hin, occursIn_trans hcontent hin, occursIn_trans htype hin,
    fun markup hm => occursIn_trans hm (occursIn_trans hcontent hin)⟩

theorem displayRecords_inserts_unescaped_witness :
    occursIn "rec-2"
      ((displayRecords sampleWorld [sampleRecord, otherRecord] .sharedRecordsList
        connectedSys).2.dom.innerHTML .sharedRecordsList) ∧
    occursIn "NOTE"
      ((displayRecords sampleWorld [sampleRecord, otherRecord] .sharedRecordsList
        connectedSys).2.dom.innerHTML .sharedRecordsList) :=
  have h := (displayRecords_inserts_unescaped sampleWorld connectedSys .sharedRecordsList
    [sampleRecord, otherRecord] (by decide)).1 otherRecord (by decide)
  ⟨h.1, h.2.2.1⟩

/-- C6: the interface description built in connect declares exactly the six
operations greet (text to text, query), add_record ({record_type, content} to
text), get_my_records (no argument to a list of records, query),
share_with_provider ((text, principal) to bool), get_shared_records (no argument
to a list of records, query) and revoke_access ((text, principal) to bool); the
record shape has exactly the fields id, patient_id, record_type, content,
timestamp, authorized_providers; and greet has the same signature in the test
interface and in the full interface. -/
theorem interface_description :
    idlFactory.fields.map Prod.fst =
      ["greet", "add_record", "get_my_records", "share_with_provider",
       "get_shared_records", "revoke_access"] ∧
    idlFactory.fields.lookup "greet"
      = some { argTypes := [.Text], retTypes := [.Text], modes := ["query"] } ∧
    idlFactory.fields.lookup "add_record"
      = some { argTypes := [.Record [("record_type", .Text), ("content", .Text)]],
               retTypes := [.Text], modes := [] } ∧
    idlFactory.fields.lookup "get_my_records"
      = some { argTypes := [], retTypes := [.Vec idlFactory.MedicalRecord], modes := ["query"] } ∧
    idlFactory.fields.lookup "share_with_provider"
      = some { argTypes := [.Text, .Principal], retTypes := [.Bool], modes := [] } ∧
    idlFactory.fields.lookup "get_shared_records"
      = some { argTypes := [], retTypes := [.Vec idlFactory.MedicalRecord], modes := ["query"] } ∧
    idlFactory.fields.lookup "revoke_access"
      = some { argTypes := [.Text, .Principal], retTypes := [.Bool], modes := [] } ∧
    IDL.fieldNames idlFactory.MedicalRecord =
      ["id", "patient_id", "record_type", "content", "timestamp",
       "authorized_providers"] ∧
    idlFactory.MedicalRecord = .Record [("id", .Text), ("patient_id", .Principal),
      ("record_type", .Text), ("content", .Text), ("timestamp", .Nat64),
      ("authorized_providers", .Vec .Principal)] ∧
    simpleIdlFactory.fields.lookup "greet" = idlFactory.fields.lookup "greet" ∧
    simpleIdlFactory.fields.map Prod.fst = ["greet"] :=
  ⟨rfl, rfl, rfl, rfl, rfl, rfl, rfl, rfl, rfl, rfl, rfl⟩

/-- C1 fails as stated: a run of testConnection invokes no canister operation,
and so does a run of addRecord while the actor handle is unset. -/
theorem not_every_run_calls_canister :
    (canisterCalls freshSys (Handler.testConnection.run sampleWorld freshSys).2).length ≠ 1 ∧
    (canisterCalls freshSys (Handler.addRecord.run sampleWorld freshSys).2).length ≠ 1 := by
  decide

/-- C1, amended: one run of a handler invokes at most one canister operation.
It invokes exactly one, with the user-supplied arguments, in these cases: addRecord
on a connected page with content that is not blank calls add_record with
{record_type, content} from the form; loadRecords and loadSharedRecords on a
connected page call get_my_records and get_shared_records; shareRecord on a
connected page with both ids entered and a provider id that parses calls
share_with_provider with the entered record id and the parsed principal (and
calls nothing when the provider id does not parse); connect calls greet("test")
on the test actor once agent construction, root-key fetch and test-actor
creation have succeeded (its root-key fetch goes to the replica and is not a
canister operation). testConnection invokes none. -/
theorem one_canister_call_on_valid_input (w : World) (s : Sys) :
    (∀ h : Handler, (canisterCalls s (h.run w s).2).length ≤ 1) ∧
    (∀ a, s.actor = some a → (∃ c ∈ s.dom.content.data, isJsWhiteSpace c = false) →
      canisterCalls s (addRecord w s).2 =
        [.add_record a { record_type := s.dom.recordType, content := s.dom.content }]) ∧
    (∀ a, s.actor = some a →
      canisterCalls s (loadRecords w s).2 = [.get_my_records a]) ∧
    (∀ a, s.actor = some a →
      canisterCalls s (loadSharedRecords w s).2 = [.get_shared_records a]) ∧
    (∀ a p, s.actor = some a → s.dom.shareRecordId ≠ "" → s.dom.providerId ≠ "" →
      w.principalFromText s.dom.providerId = .ok p →
      canisterCalls s (shareRecord w s).2 =
        [.share_with_provider a s.dom.shareRecordId p]) ∧
    (∀ a e, s.actor = some a → s.dom.shareRecordId ≠ "" → s.dom.providerId ≠ "" →
      w.principalFromText s.dom.providerId = .error e →
      canisterCalls s (shareRecord w s).2 = []) ∧
    (∀ ag t, w.newHttpAgent "http://localhost:4943" = .ok ag →
      w.fetchRootKey ag = .ok () →
      w.createActor simpleIdlFactory ag canisterId = .ok t →
      canisterCalls s (connect w s).2 = [.greet t "test"]) ∧
    canisterCalls s (testConnection w s).2 = [] := by
  refine ⟨fun h => canisterCalls_length_le_one h w s, ?_, ?_, ?_, ?_, ?_, ?_, ?_⟩
  · intro a hs hc
    have hne : jsTrim s.dom.content ≠ "" := by
      intro h0
      obtain ⟨c, hmem, hcw⟩ := hc
      have := (jsTrim_eq_empty_iff _).mp h0 c hmem
      rw [hcw] at this
      exact absurd this (by decide)
    cases hw : w.add_record a { record_type := s.dom.recordType, content := s.dom.content } with
    | ok recordId =>
      simp [addRecord_ok w s a recordId hs hne hw, canisterCalls, newEvents,
        Sys.withStatus, Sys.logged, Op.isCanisterCall]
    | error e =>
      simp [addRecord_throw w s a e hs hne hw, canisterCalls, newEvents, caught_log,
        Sys.logged, Op.isCanisterCall]
  · intro a hs
    cases hw : w.get_my_records a with
    | ok records =>
      simp [loadRecords_ok w s a records hs hw, canisterCalls, newEvents,
        Sys.loaded, Op.isCanisterCall]
    | error e =>
      simp [loadRecords_throw w s a e hs hw, canisterCalls, newEvents, caught_log,
        Sys.logged, Op.isCanisterCall]
  · intro a hs
    cases hw : w.get_shared_records a with
    | ok records =>
      simp [loadSharedRecords_ok w s a records hs hw, canisterCalls, newEvents,
        Sys.loaded, Op.isCanisterCall]
    | error e =>
      simp [loadSharedRecords_throw w s a e hs hw, canisterCalls, newEvents, caught_log,
        Sys.logged, Op.isCanisterCall]
  · intro a p hs hr hp hw
    cases hw2 : w.share_with_provider a s.dom.shareRecordId p with
    | ok success =>
      cases success <;>
      simp [shareRecord_ok w s a p _ hs hr hp hw hw2, canisterCalls, newEvents,
        Sys.withStatus, Sys.logged, Op.isCanisterCall]
    | error e =>
      simp [shareRecord_throw w s a p e hs hr hp hw hw2, canisterCalls, newEvents,
        caught_log, Sys.logged, Op.isCanisterCall]
  · intro a e hs hr hp hw
    simp [shareRecord_badPrincipal w s a e hs hr hp hw, canisterCalls, newEvents,
      caught_log, Sys.logged, Op.isCanisterCall]
  · intro ag t h1 h2 h3
    cases h4 : w.greet t "test" with
    | error e =>
      simp [connect_throw_greet w s ag t e h1 h2 h3 h4, canisterCalls, newEvents,
        caught_log, Sys.withStatus, Sys.logged, Sys.afterAgent, Op.isCanisterCall]
    | ok r =>
      cases h5 : w.createActor idlFactory ag canisterId with
      | error e =>
        simp [connect_throw_fullActor w s ag t r e h1 h2 h3 h4 h5, canisterCalls, newEvents,
          caught_log, Sys.withStatus, Sys.logged, Sys.afterAgent, Op.isCanisterCall]
      | ok full =>
        simp [connect_ok w s ag t r full h1 h2 h3 h4 h5, canisterCalls, newEvents,
          Sys.withStatus, Sys.logged, Sys.afterAgent, Op.isCanisterCall]
  · rcases testConnection_cases w s with k | ⟨_, k⟩ <;>
    simp [k, canisterCalls, newEvents, caught_log, Sys.withStatus, Sys.logged,
      Op.isCanisterCall]

theorem one_canister_call_on_valid_input_witness :
    canisterCalls connectedSys (addRecord sampleWorld connectedSys).2 =
      [.add_record { ref := 6 } { record_type := "lab", content := "Hb 13.5" }] ∧
    canisterCalls connectedSys (shareRecord sampleWorld connectedSys).2 =
      [.share_with_provider { ref := 6 } "rec-1"
        { bytes := [97, 97, 97, 97, 97, 45, 97, 97] }] ∧
    canisterCalls freshSys (connect sampleWorld freshSys).2 =
      [.greet { ref := 1 } "test"] :=
  ⟨(one_canister_call_on_valid_input sampleWorld connectedSys).2.1 { ref := 6 } rfl
      ⟨'H', by decide, by decide⟩,
   (one_canister_call_on_valid_input sampleWorld connectedSys).2.2.2.2.1 { ref := 6 }
      { bytes := [97, 97, 97, 97, 97, 45, 97, 97] } rfl (by decide) (by decide) rfl,
   (one_canister_call_on_valid_input sampleWorld freshSys).2.2.2.2.2.2.1 { ref := 1 }
      { ref := 1 } rfl rfl rfl⟩


/-- C9: on a connected page with content that is not blank, when add_record
returns an identifier the handler completes, the status is "Record added with
ID: " followed by it with class "status success", the content field becomes the
empty string and the record-type field is unchanged; when add_record throws,
whatever the thrown value, the content field and the record-type field are left
as entered (and the handler completes unless the value is null or undefined). -/
theorem addRecord_keeps_draft_unless_stored (w : World) (s : Sys) (a : Actor)
    (hs : s.actor = some a) (hc : ∃ c ∈ s.dom.content.data, isJsWhiteSpace c = false) :
    (∀ recordId, w.add_record a
        { record_type := s.dom.recordType, content := s.dom.content } = .ok recordId →
      (addRecord w s).1 = .ok () ∧
      (addRecord w s).2.dom.statusText = "Record added with ID: " ++ recordId ∧
      (addRecord w s).2.dom.statusClass = "status success" ∧
      (addRecord w s).2.dom.content = "" ∧
      (addRecord w s).2.dom.recordType = s.dom.recordType) ∧
    (∀ e, w.add_record a
        { record_type := s.dom.recordType, content := s.dom.content } = .error e →
      (e.messageText ≠ none → (addRecord w s).1 = .ok ()) ∧
      (addRecord w s).2.dom.content = s.dom.content ∧
      (addRecord w s).2.dom.recordType = s.dom.recordType) := by
  have hne : jsTrim s.dom.content ≠ "" := by
    intro h0
    obtain ⟨c, hmem, hcw⟩ := hc
    have := (jsTrim_eq_empty_iff _).mp h0 c hmem
    rw [hcw] at this
    exact absurd this (by decide)
  constructor
  · intro recordId hw
    rw [addRecord_ok w s a recordId hs hne hw]
    exact ⟨rfl, rfl, rfl, rfl, rfl⟩
  · intro e hw
    rw [addRecord_throw w s a e hs hne hw]
    refine ⟨?_, (caught_content _ _ _ _).1, (caught_content _ _ _ _).2⟩
    intro hm
    cases hmt : e.messageText with
    | none => exact absurd hmt hm
    | some m => rw [caught_of_message _ _ _ _ _ hmt]

theorem addRecord_keeps_draft_unless_stored_witness :
    (addRecord sampleWorld connectedSys).2.dom.statusText = "Record added with ID: rec-3" ∧
    (addRecord sampleWorld connectedSys).2.dom.content = "" ∧
    (addRecord failingWorld connectedSys).1 = .ok () ∧
    (addRecord failingWorld connectedSys).2.dom.content = "Hb 13.5" ∧
    (addRecord nullWorld connectedSys).2.dom.content = "Hb 13.5" := by
  have h1 := (addRecord_keeps_draft_unless_stored sampleWorld connectedSys { ref := 6 } rfl
    ⟨'H', by decide, by decide⟩).1 "rec-3" rfl
  have h2 := (addRecord_keeps_draft_unless_stored failingWorld connectedSys { ref := 6 } rfl
    ⟨'H', by decide, by decide⟩).2 (.object (some "boom")) rfl
  have h3 := (addRecord_keeps_draft_unless_stored nullWorld connectedSys { ref := 6 } rfl
    ⟨'H', by decide, by decide⟩).2 .null rfl
  exact ⟨h1.2.1, h1.2.2.2.1, h2.1 (by decide), h2.2.1, h3.2.1⟩

/-- C2 fails as stated: when add_record throws an error with message "boom",
the status text is "Failed to add record: boom", not "boom". -/
theorem status_not_bare_message :
    (∃ ev ∈ newEvents connectedSys (Handler.addRecord.run failingWorld connectedSys).2,
      ev.threw = some (.object (some "boom"))) ∧
    (Handler.addRecord.run failingWorld connectedSys).2.dom.statusText
      = "Failed to add record: boom" ∧
    (Handler.addRecord.run failingWorld connectedSys).2.dom.statusText ≠ "boom" := by
  decide

/-- C2, amended: for every handler and every error e thrown by a call it makes,
the status text after the run is the handler's fixed lead text ("Connection
failed: ", "Failed to add record: ", "Failed to load records: ", "Invalid
provider ID or sharing failed: ", "Failed to load shared records: ") followed by
e.message, which appears unchanged at the end.  The message of an error object
with message text msg is msg. -/
theorem status_is_lead_then_message (h : Handler) (w : World) (s : Sys) (e : Thrown)
    (m : String)
    (hev : ∃ ev ∈ newEvents s (h.run w s).2, ev.threw = some e)
    (hm : e.messageText = some m) :
    (h.run w s).2.dom.statusText = failureLead h ++ m ∧
    (failureLead .connect = "Connection failed: " ∧
     failureLead .addRecord = "Failed to add record: " ∧
     failureLead .loadRecords = "Failed to load records: " ∧
     failureLead .shareRecord = "Invalid provider ID or sharing failed: " ∧
     failureLead .loadSharedRecords = "Failed to load shared records: ") ∧
    (∀ msg : String, (Thrown.object (some msg)).messageText = some msg) :=
  ⟨(thrown_status h w s e m hev hm).2.1, ⟨rfl, rfl, rfl, rfl, rfl⟩, fun _ => rfl⟩

theorem status_is_lead_then_message_witness :
    (Handler.loadRecords.run failingWorld connectedSys).2.dom.statusText
      = "Failed to load records: offline" :=
  (status_is_lead_then_message .loadRecords failingWorld connectedSys
    (.object (some "offline")) "offline" (by decide) rfl).1

/-- C3 fails as stated: when add_record rejects with null, reading
error.message in the catch block throws, so addRecord does not complete
normally (it rejects with the engine's TypeError) and the status keeps the
class it had instead of "status error". -/
theorem null_rejection_propagates :
    nullWorld.add_record { ref := 6 } { record_type := "lab", content := "Hb 13.5" }
      = .error .null ∧
    (Handler.addRecord.run nullWorld connectedSys).1
      = .error (nullWorld.typeError .null) ∧
    (Handler.addRecord.run nullWorld connectedSys).1 ≠ .ok () ∧
    (Handler.addRecord.run nullWorld connectedSys).2.dom.statusClass = "status" ∧
    (Handler.addRecord.run nullWorld connectedSys).2.dom.statusClass ≠ "status error" := by
  refine ⟨rfl, rfl, ?_, rfl, by decide⟩
  intro h
  have h2 : (Handler.addRecord.run nullWorld connectedSys).1
      = .error (nullWorld.typeError .null) := rfl
  rw [h2] at h
  exact Except.noConfusion h

/-- C3, amended: for every handler, world and state, whenever the first call
that throws (a canister call, the root-key fetch, actor creation,
Principal.fromText or the agent constructor) throws a value other than null or
undefined, the handler completes normally and the status element ends with
class "status error" and a non-empty message; and every run in which no call
threw null or undefined completes normally. -/
theorem failure_shown_unless_nullish (w : World) (s : Sys) (v : Thrown)
    (hv : v.messageText ≠ none) :
    (connectThrows w v → FailureShown (connect w s)) ∧
    (∀ a, s.actor = some a → (∃ c ∈ s.dom.content.data, isJsWhiteSpace c = false) →
      w.add_record a { record_type := s.dom.recordType, content := s.dom.content }
        = .error v →
      FailureShown (addRecord w s)) ∧
    (∀ a, s.actor = some a → w.get_my_records a = .error v →
      FailureShown (loadRecords w s)) ∧
    (∀ a, s.actor = some a → s.dom.shareRecordId ≠ "" → s.dom.providerId ≠ "" →
      shareThrows w a s.dom.shareRecordId s.dom.providerId v →
      FailureShown (shareRecord w s)) ∧
    (∀ a, s.actor = some a → w.get_shared_records a = .error v →
      FailureShown (loadSharedRecords w s)) ∧
    (w.newHttpAgent "http://localhost:4943" = .error v →
      FailureShown (testConnection w s)) ∧
    (∀ h : Handler,
      (∀ ev ∈ newEvents s (h.run w s).2, ∀ u, ev.threw = some u → u.messageText ≠ none) →
      (h.run w s).1 = .ok ()) := by
  refine ⟨?_, ?_, ?_, ?_, ?_, ?_, fun h hev => completes_unless_nullish h w s hev⟩
  · rintro (h1 | ⟨ag, h1, h2 | ⟨h2, h3 | ⟨t, h3, h4 | ⟨⟨r, h4⟩, h5⟩⟩⟩⟩)
    · rw [connect_throw_agent w s v h1]
      exact caught_failureShown _ _ _ _ hv (by decide)
    · rw [connect_throw_rootKey w s ag v h1 h2]
      exact caught_failureShown _ _ _ _ hv (by decide)
    · rw [connect_throw_testActor w s ag v h1 h2 h3]
      exact caught_failureShown _ _ _ _ hv (by decide)
    · rw [connect_throw_greet w s ag t v h1 h2 h3 h4]
      exact caught_failureShown _ _ _ _ hv (by decide)
    · rw [connect_throw_fullActor w s ag t r v h1 h2 h3 h4 h5]
      exact caught_failureShown _ _ _ _ hv (by decide)
  · intro a hs hc hw
    have hne : jsTrim s.dom.content ≠ "" := by
      intro h0
      obtain ⟨c, hmem, hcw⟩ := hc
      have := (jsTrim_eq_empty_iff _).mp h0 c hmem
      rw [hcw] at this
      exact absurd this (by decide)
    rw [addRecord_throw w s a v hs hne hw]
    exact caught_failureShown _ _ _ _ hv (by decide)
  · intro a hs hw
    rw [loadRecords_throw w s a v hs hw]
    exact caught_failureShown _ _ _ _ hv (by decide)
  · rintro a hs hr hp (hw | ⟨p, hw, hw2⟩)
    · rw [shareRecord_badPrincipal w s a v hs hr hp hw]
      exact caught_failureShown _ _ _ _ hv (by decide)
    · rw [shareRecord_throw w s a p v hs hr hp hw hw2]
      exact caught_failureShown _ _ _ _ hv (by decide)
  · intro a hs hw
    rw [loadSharedRecords_throw w s a v hs hw]
    exact caught_failureShown _ _ _ _ hv (by decide)
  · intro hw
    rw [testConnection_throw w s v hw]
    exact caught_failureShown _ _ _ _ hv (by decide)

theorem failure_shown_unless_nullish_witness :
    FailureShown (connect failingWorld freshSys) ∧
    FailureShown (shareRecord failingWorld connectedSys) ∧
    FailureShown (loadRecords { failingWorld with get_my_records := fun _ => .error .primitive }
      connectedSys) :=
  ⟨(failure_shown_unless_nullish failingWorld freshSys (.object (some "no agent"))
      (by decide)).1 (.inl rfl),
   (failure_shown_unless_nullish failingWorld connectedSys (.object (some "bad principal"))
      (by decide)).2.2.2.1 { ref := 6 } rfl (by decide) (by decide) (.inl rfl),
   (failure_shown_unless_nullish
      { failingWorld with get_my_records := fun _ => .error .primitive } connectedSys
      .primitive (by decide)).2.2.1 { ref := 6 } rfl rfl⟩

set_option maxRecDepth 100000 in
/-- C5 fails as stated: for the one forged record, whose content closes its own
element and opens another, the container holds two record blocks for one
returned record. -/
theorem forged_record_adds_a_block :
    forgedWorld.get_my_records { ref := 6 } = .ok [forgedRecord] ∧
    countOccurrences recordOpener (loadRecords forgedWorld connectedSys).2.dom.recordsList
      = 2 ∧
    countOccurrences recordOpener (loadRecords forgedWorld connectedSys).2.dom.recordsList
      ≠ [forgedRecord].length :=
  ⟨rfl, by decide, by decide⟩

/-- C5, amended: when get_my_records (resp. get_shared_records) returns a list
of records, loadRecords (resp. loadSharedRecords) completes and leaves exactly
this state: the call is logged as returned; its container holds the "No records
found." placeholder for the empty list and otherwise the concatenation, in the
returned order, of one instance of the record template per returned record,
each instance showing that record's id and content unchanged and unescaped; the
status reports the number of returned records with class "status success"; the
array of returned records still holds exactly the returned records; and
everything else (the other container, the form fields, actor and agent) is as
it was. -/
theorem list_view_is_returned_list (w : World) (s : Sys) (a : Actor)
    (records : List MedicalRecord) (hs : s.actor = some a) :
    (w.get_my_records a = .ok records →
      loadRecords w s = (.ok (), { s with
        log := s.log ++ [{ op := .get_my_records a, threw := none }]
        arrays := s.arrays ++ [records]
        dom := { s.dom with
          recordsList :=
            if records = [] then "<p>No records found.</p>"
            else String.join (records.map (recordHtml w))
          statusText := "Loaded " ++ toString records.length ++ " records"
          statusClass := "status success" } })) ∧
    (w.get_shared_records a = .ok records →
      loadSharedRecords w s = (.ok (), { s with
        log := s.log ++ [{ op := .get_shared_records a, threw := none }]
        arrays := s.arrays ++ [records]
        dom := { s.dom with
          sharedRecordsList :=
            if records = [] then "<p>No records found.</p>"
            else String.join (records.map (recordHtml w))
          statusText := "Loaded " ++ toString records.length ++ " shared records"
          statusClass := "status success" } })) ∧
    (records.map (recordHtml w)).length = records.length ∧
    (∀ (r : MedicalRecord) (rest : List MedicalRecord),
      String.join ((r :: rest).map (recordHtml w))
        = recordHtml w r ++ String.join (rest.map (recordHtml w))) ∧
    String.join (([] : List MedicalRecord).map (recordHtml w)) = "" ∧
    (∀ r : MedicalRecord, showsRecord r (recordHtml w r)) := by
  refine ⟨?_, ?_, List.length_map _ _, fun r rest => join_cons _ _, rfl, fun r =>
    ⟨(recordHtml_shows w r).1, (recordHtml_shows w r).2.2.1, (recordHtml_shows w r).2.2.2⟩⟩
  · intro hw
    rw [loadRecords_ok w s a records hs hw]
    cases records with
    | nil => rfl
    | cons r rest => simp [Sys.loaded, Dom.setInnerHTML]
  · intro hw
    rw [loadSharedRecords_ok w s a records hs hw]
    cases records with
    | nil => rfl
    | cons r rest => simp [Sys.loaded, Dom.setInnerHTML]

theorem list_view_is_returned_list_witness :
    (loadRecords sampleWorld connectedSys).2.dom.recordsList
      = recordHtml sampleWorld sampleRecord ++ recordHtml sampleWorld otherRecord ∧
    (loadRecords sampleWorld connectedSys).2.dom.statusText = "Loaded 2 records" ∧
    (loadRecords sampleWorld connectedSys).2.arrays = [[sampleRecord, otherRecord]] ∧
    (loadSharedRecords sampleWorld connectedSys).2.dom.sharedRecordsList
      = "<p>No records found.</p>" := by
  have h1 := (list_view_is_returned_list sampleWorld connectedSys { ref := 6 }
    [sampleRecord, otherRecord] rfl).1 rfl
  have h2 := (list_view_is_returned_list sampleWorld connectedSys { ref := 6 } [] rfl).2.1 rfl
  rw [h1, h2]
  refine ⟨?_, rfl, rfl, rfl⟩
  simp only [List.map, join_cons, if_neg (List.cons_ne_nil _ _)]
  rw [show String.join ([] : List String) = "" from rfl, String.append_empty]

end MedicalRecords
